import Mathlib

/-!
Verification of the resource-scaffolder CLI of the
`express-prisma-ts-app-boilerplate` repository.

The CLI lives in `.bin/raw-cli.js` (flat `resource` command with the
existing-file reconciler) and in the companion CLI script (flat `resource`
plus `nested-resource`).  JS strings are modelled as Lean `String`s
(lists of code points); the ASCII case mappings `toLowerCase`/
`toUpperCase` are modelled on the ASCII range, which is the only range
the generator's own alphabet exercises.  File-system effects are
modelled by an explicit state record and lists of write/log events.
-/

/-! ## Character helpers (ASCII case mapping, character classes) -/

/-- The set `[a-zA-Z]` of the regex `/[^a-zA-Z]+/g` in `toCamelCase`. -/
def isAsciiAlpha (c : Char) : Bool :=
  (97 ≤ c.toNat && c.toNat ≤ 122) || (65 ≤ c.toNat && c.toNat ≤ 90)

/-- The JS `\s` class: WhiteSpace and LineTerminator code points. -/
def isJsSpace (c : Char) : Bool :=
  [9, 10, 11, 12, 13, 32, 160, 0x1680, 0x2028, 0x2029, 0x202f, 0x205f, 0x3000,
    0xfeff].contains c.toNat || (0x2000 ≤ c.toNat && c.toNat ≤ 0x200a)

/-- The character class of
`specialCharRegex = /[0-9!@#$%^&*()_+{}\[\]:;"'<>,.?/~`|\-=\s]/g`
(`.bin/raw-cli.js` line 17): digits, the listed punctuation, whitespace. -/
def isSpecialChar (c : Char) : Bool :=
  (48 ≤ c.toNat && c.toNat ≤ 57) ||
  [33, 64, 35, 36, 37, 94, 38, 42, 40, 41, 95, 43, 123, 125, 91, 93, 58, 59,
    34, 39, 60, 62, 44, 46, 63, 47, 126, 96, 124, 45, 61].contains c.toNat ||
  isJsSpace c

/-- ASCII fragment of JS `String.prototype.toLowerCase`, per character. -/
def jsLowerChar (c : Char) : Char :=
  if 65 ≤ c.toNat && c.toNat ≤ 90 then Char.ofNat (c.toNat + 32) else c

/-- ASCII fragment of JS `String.prototype.toUpperCase`, per character. -/
def jsUpperChar (c : Char) : Char :=
  if 97 ≤ c.toNat && c.toNat ≤ 122 then Char.ofNat (c.toNat - 32) else c

/-! ## The `toCamelCase` pipeline (`.bin/raw-cli.js` lines 25-36)

`str.replace(/[^a-zA-Z]+/g, '-')` replaces each maximal run of
non-letters by a single hyphen; `.replace(/^-+|-+$/g, '')` strips the
leading and trailing hyphens; the result is split on `'-'`, the first
word lowercased, the remaining words capitalised-and-lowercased, and
everything joined. -/

/-- Model of `str.replace(/[^a-zA-Z]+/g, '-')`: the flag records whether the
previous character belonged to a non-letter run already replaced. -/
def hyphenateGo : Bool → List Char → List Char
  | _, [] => []
  | inRun, c :: cs =>
    if isAsciiAlpha c then c :: hyphenateGo false cs
    else if inRun then hyphenateGo true cs else '-' :: hyphenateGo true cs

def hyphenate (l : List Char) : List Char := hyphenateGo false l

/-- Model of `.replace(/^-+|-+$/g, '')`: strip leading and trailing hyphens. -/
def stripEdgeHyphens (l : List Char) : List Char :=
  ((l.dropWhile (fun c => c == '-')).reverse.dropWhile (fun c => c == '-')).reverse

/-- Prepend a character to the first word of a word list. -/
def consHead (c : Char) : List (List Char) → List (List Char)
  | [] => [[c]]
  | w :: ws => (c :: w) :: ws

/-- Model of JS `String.prototype.split` with a one-character separator
(`"".split('-') = [""]`). -/
def splitOnSep (sep : Char) : List Char → List (List Char)
  | [] => [[]]
  | c :: cs =>
    if c = sep then [] :: splitOnSep sep cs else consHead c (splitOnSep sep cs)

/-- Model of `word.charAt(0).toUpperCase() + word.slice(1).toLowerCase()`. -/
def capWordLower : List Char → List Char
  | [] => []
  | c :: cs => jsUpperChar c :: cs.map jsLowerChar

/-- Model of `.map((word, index) => index === 0 ? word.toLowerCase() : ...).join('')`. -/
def camelJoin : List (List Char) → List Char
  | [] => []
  | w :: ws => w.map jsLowerChar ++ (ws.map capWordLower).flatten

def toCamelCaseL (l : List Char) : List Char :=
  camelJoin (splitOnSep '-' (stripEdgeHyphens (hyphenate l)))

/-- The `toCamelCase` of `.bin/raw-cli.js` lines 25-36, on strings. -/
def toCamelCase (s : String) : String := String.mk (toCamelCaseL s.data)

/-- Model of `specialCharRegex.test(s)` with `lastIndex = 0` (each CLI invocation
performs a single `test` call, so the regex state is fresh). -/
def containsSpecialChar (s : String) : Bool := s.data.any isSpecialChar

/-- ASCII fragment of JS `String.prototype.toLowerCase` on strings. -/
def jsToLowerCase (s : String) : String := String.mk (s.data.map jsLowerChar)

/-- The `capitalize` of `.bin/raw-cli.js` lines 20-22:
`str.charAt(0).toUpperCase() + str.slice(1)`. -/
def capitalize (s : String) : String :=
  match s.data with
  | [] => String.mk []
  | c :: cs => String.mk (jsUpperChar c :: cs)

/-- The resource-name normalisation of `.bin/raw-cli.js` lines 45-47:
`!specialCharRegex.test(args[0]) ? args[0].toLowerCase() : toCamelCase(args[0])`. -/
def resourceNameOf (s : String) : String :=
  if !(containsSpecialChar s) then jsToLowerCase s else toCamelCase s

/-! ## Trimming and byte sizes -/

/-- Model of JS `String.prototype.trim`: strip `\s` from both ends. -/
def jsTrim (s : String) : String :=
  String.mk (((s.data.dropWhile isJsSpace).reverse.dropWhile isJsSpace).reverse)

/-- Model of `Buffer.byteLength(s, 'utf8')`: UTF-8 size of the string. -/
def jsByteLength (s : String) : Nat := (s.data.map Char.utf8Size).sum

/-! ## The four file templates of `.bin/raw-cli.js` (`resource` command)

Each definition is the template literal of the source, character for
character (`\x7b`/`\x7d` are the braces, `\x27` the apostrophe), with
the interpolations of `args[0]`, `resourceName` and
`capitalizedResourceName` as the parameters `raw`, `res`, `cap`. -/

set_option maxRecDepth 4000

def routeContent (raw _res cap : String) : String :=
  "\n" ++
  ("// Import Router from express\n" ++
  ("import \x7b Router \x7d from \x27express\x27;\n" ++
  ("\n" ++
  ("// Import controller from corresponding module\n" ++
  ("import \x7b \n" ++
  ("  create" ++
  (cap ++
  (",\n" ++
  ("  createMany" ++
  (cap ++
  (",\n" ++
  ("  update" ++
  (cap ++
  (",\n" ++
  ("  updateMany" ++
  (cap ++
  (",\n" ++
  ("  delete" ++
  (cap ++
  (",\n" ++
  ("  deleteMany" ++
  (cap ++
  (",\n" ++
  ("  get" ++
  (cap ++
  ("ById,\n" ++
  ("  getMany" ++
  (cap ++
  ("\n" ++
  ("\x7d from \x27./" ++
  (raw ++
  (".controller\x27;\n" ++
  ("\n" ++
  ("//Import validation from corresponding module\n" ++
  ("import \x7b validateCreate" ++
  (cap ++
  (", validateCreateMany" ++
  (cap ++
  (", validateUpdate" ++
  (cap ++
  (", validateUpdateMany" ++
  (cap ++
  ("\x7d from \x27./" ++
  (raw ++
  (".validation\x27;\n" ++
  ("import \x7b validateId, validateIds, validateSearchQueries \x7d from \x27../../handlers/common-zod-validator\x27;\n" ++
  ("\n" ++
  ("// Initialize router\n" ++
  ("const router = Router();\n" ++
  ("\n" ++
  ("// Define route handlers\n" ++
  ("/**\n" ++
  (" * @route POST /api/v1/" ++
  (raw ++
  ("/create-" ++
  (raw ++
  ("\n" ++
  (" * @description Create a new " ++
  (raw ++
  ("\n" ++
  (" * @access Public\n" ++
  (" * @param \x7bfunction\x7d controller - [\x27create" ++
  (cap ++
  ("\x27]\n" ++
  (" * @param \x7bfunction\x7d validation - [\x27validateCreate" ++
  (cap ++
  ("\x27]\n" ++
  (" */\n" ++
  ("router.post(\"/create-" ++
  (raw ++
  ("\", validateCreate" ++
  (cap ++
  (", create" ++
  (cap ++
  (");\n" ++
  ("\n" ++
  ("/**\n" ++
  (" * @route POST /api/v1/" ++
  (raw ++
  ("/create-" ++
  (raw ++
  ("/many\n" ++
  (" * @description Create multiple " ++
  (raw ++
  ("s\n" ++
  (" * @access Public\n" ++
  (" * @param \x7bfunction\x7d controller - [\x27createMany" ++
  (cap ++
  ("\x27]\n" ++
  (" * @param \x7bfunction\x7d validation - [\x27validateCreateMany" ++
  (cap ++
  ("\x27]\n" ++
  (" */\n" ++
  ("router.post(\"/create-" ++
  (raw ++
  ("/many\", validateCreateMany" ++
  (cap ++
  (", createMany" ++
  (cap ++
  (");\n" ++
  ("\n" ++
  ("/**\n" ++
  (" * @route PATCH /api/v1/" ++
  (raw ++
  ("/update-" ++
  (raw ++
  ("/many\n" ++
  (" * @description Update multiple " ++
  (raw ++
  ("s information\n" ++
  (" * @access Public\n" ++
  (" * @param \x7bfunction\x7d controller - [\x27updateMany" ++
  (cap ++
  ("\x27]\n" ++
  (" * @param \x7bfunction\x7d validation - [\x27validateIds\x27, \x27validateUpdateMany" ++
  (cap ++
  ("\x27]\n" ++
  (" */\n" ++
  ("router.patch(\"/update-" ++
  (raw ++
  ("/many\", validateIds, validateUpdateMany" ++
  (cap ++
  (", updateMany" ++
  (cap ++
  (");\n" ++
  ("\n" ++
  ("/**\n" ++
  (" * @route PATCH /api/v1/" ++
  (raw ++
  ("/update-" ++
  (raw ++
  ("/:id\n" ++
  (" * @description Update " ++
  (raw ++
  (" information\n" ++
  (" * @param \x7bstring\x7d id - The ID of the " ++
  (raw ++
  (" to update\n" ++
  (" * @access Public\n" ++
  (" * @param \x7bfunction\x7d controller - [\x27update" ++
  (cap ++
  ("\x27]\n" ++
  (" * @param \x7bfunction\x7d validation - [\x27validateId\x27, \x27validateUpdate" ++
  (cap ++
  ("\x27]\n" ++
  (" */\n" ++
  ("router.patch(\"/update-" ++
  (raw ++
  ("/:id\", validateId, validateUpdate" ++
  (cap ++
  (", update" ++
  (cap ++
  (");\n" ++
  ("\n" ++
  ("/**\n" ++
  (" * @route DELETE /api/v1/" ++
  (raw ++
  ("/delete-" ++
  (raw ++
  ("/many\n" ++
  (" * @description Delete multiple " ++
  (raw ++
  ("s\n" ++
  (" * @access Public\n" ++
  (" * @param \x7bfunction\x7d controller - [\x27deleteMany" ++
  (cap ++
  ("\x27]\n" ++
  (" * @param \x7bfunction\x7d validation - [\x27validateIds\x27]\n" ++
  (" */\n" ++
  ("router.delete(\"/delete-" ++
  (raw ++
  ("/many\", validateIds, deleteMany" ++
  (cap ++
  (");\n" ++
  ("\n" ++
  ("/**\n" ++
  (" * @route DELETE /api/v1/" ++
  (raw ++
  ("/delete-" ++
  (raw ++
  ("/:id\n" ++
  (" * @description Delete a " ++
  (raw ++
  ("\n" ++
  (" * @param \x7bstring\x7d id - The ID of the " ++
  (raw ++
  (" to delete\n" ++
  (" * @access Public\n" ++
  (" * @param \x7bfunction\x7d controller - [\x27delete" ++
  (cap ++
  ("\x27]\n" ++
  (" * @param \x7bfunction\x7d validation - [\x27validateId\x27]\n" ++
  (" */\n" ++
  ("router.delete(\"/delete-" ++
  (raw ++
  ("/:id\", validateId, delete" ++
  (cap ++
  (");\n" ++
  ("\n" ++
  ("/**\n" ++
  (" * @route GETapi/v1/" ++
  (raw ++
  ("/get-" ++
  (raw ++
  ("/many\n" ++
  (" * @description Get multiple " ++
  (raw ++
  ("s\n" ++
  (" * @access Public\n" ++
  (" * @param \x7bfunction\x7d controller - [\x27getMany" ++
  (cap ++
  ("\x27]\n" ++
  (" * @param \x7bfunction\x7d validation - [\x27validateSearchQueries\x27]\n" ++
  (" */\n" ++
  ("router.get(\"/get-" ++
  (raw ++
  ("/many\", validateSearchQueries, getMany" ++
  (cap ++
  (");\n" ++
  ("\n" ++
  ("/**\n" ++
  (" * @route GET /api/v1/" ++
  (raw ++
  ("/get-" ++
  (raw ++
  ("/:id\n" ++
  (" * @description Get a " ++
  (raw ++
  (" by ID\n" ++
  (" * @param \x7bstring\x7d id - The ID of the " ++
  (raw ++
  (" to retrieve\n" ++
  (" * @access Public\n" ++
  (" * @param \x7bfunction\x7d controller - [\x27get" ++
  (cap ++
  ("ById\x27]\n" ++
  (" * @param \x7bfunction\x7d validation - [\x27validateId\x27]\n" ++
  (" */\n" ++
  ("router.get(\"/get-" ++
  (raw ++
  ("/:id\", validateId, get" ++
  (cap ++
  ("ById);\n" ++
  ("\n" ++
  ("// Export the router\n" ++
  ("module.exports = router;\n" ++
  ("    ")))))))))))))))))))))))))))))))))))))))))))))))))))))))))))))))))))))))))))))))))))))))))))))))))))))))))))))))))))))))))))))))))))))))))))))))))))))))))))))))))))))))))))))))))))))))))))))))))))))))))))))))))))))))))))))))))))))))))))))))))))))))

def controllerContent (raw res cap : String) : String :=
  "\n" ++
  ("import \x7b Request, Response \x7d from \x27express\x27;\n" ++
  ("import \x7b " ++
  (res ++
  ("Services \x7d from \x27./" ++
  (raw ++
  (".service\x27;\n" ++
  ("import ServerResponse from \x27../../helpers/responses/custom-response\x27;\n" ++
  ("import catchAsync from \x27../../utils/catch-async/catch-async\x27;\n" ++
  ("\n" ++
  ("/**\n" ++
  (" * Controller function to handle the creation of a single " ++
  (cap ++
  (".\n" ++
  (" *\n" ++
  (" * @param \x7bRequest\x7d req - The request object containing " ++
  (raw ++
  (" data in the body.\n" ++
  (" * @param \x7bResponse\x7d res - The response object used to send the response.\n" ++
  (" * @returns \x7bvoid\x7d\n" ++
  (" */\n" ++
  ("export const create" ++
  (cap ++
  (" = catchAsync(async (req: Request, res: Response) => \x7b\n" ++
  ("  // Call the service method to create a new " ++
  (raw ++
  (" and get the result\n" ++
  ("  const result = await " ++
  (res ++
  ("Services.create" ++
  (cap ++
  ("(req.body);\n" ++
  ("  // Send a success response with the created " ++
  (raw ++
  (" data\n" ++
  ("  ServerResponse(res, true, 201, \x27" ++
  (cap ++
  (" created successfully\x27, result);\n" ++
  ("\x7d);\n" ++
  ("\n" ++
  ("/**\n" ++
  (" * Controller function to handle the creation of multiple " ++
  (raw ++
  ("s.\n" ++
  (" *\n" ++
  (" * @param \x7bRequest\x7d req - The request object containing an array of " ++
  (raw ++
  (" data in the body.\n" ++
  (" * @param \x7bResponse\x7d res - The response object used to send the response.\n" ++
  (" * @returns \x7bvoid\x7d\n" ++
  (" */\n" ++
  ("export const createMany" ++
  (cap ++
  (" = catchAsync(async (req: Request, res: Response) => \x7b\n" ++
  ("  // Call the service method to create multiple " ++
  (res ++
  ("s and get the result\n" ++
  ("  const result = await " ++
  (res ++
  ("Services.createMany" ++
  (cap ++
  ("(req.body);\n" ++
  ("  // Send a success response with the created " ++
  (raw ++
  ("s data\n" ++
  ("  ServerResponse(res, true, 201, \x27" ++
  (cap ++
  ("s created successfully\x27, result);\n" ++
  ("\x7d);\n" ++
  ("\n" ++
  ("/**\n" ++
  (" * Controller function to handle the update operation for a single " ++
  (raw ++
  (".\n" ++
  (" *\n" ++
  (" * @param \x7bRequest\x7d req - The request object containing the ID of the " ++
  (raw ++
  (" to update in URL parameters and the updated data in the body.\n" ++
  (" * @param \x7bResponse\x7d res - The response object used to send the response.\n" ++
  (" * @returns \x7bvoid\x7d\n" ++
  (" */\n" ++
  ("export const update" ++
  (cap ++
  (" = catchAsync(async (req: Request, res: Response) => \x7b\n" ++
  ("  const \x7b id \x7d = req.params;\n" ++
  ("  // Call the service method to update the " ++
  (raw ++
  (" by ID and get the result\n" ++
  ("  const result = await " ++
  (res ++
  ("Services.update" ++
  (cap ++
  ("(id, req.body);\n" ++
  ("  // Send a success response with the updated " ++
  (raw ++
  (" data\n" ++
  ("  ServerResponse(res, true, 200, \x27" ++
  (cap ++
  (" updated successfully\x27, result);\n" ++
  ("\x7d);\n" ++
  ("\n" ++
  ("/**\n" ++
  (" * Controller function to handle the update operation for multiple " ++
  (raw ++
  ("s.\n" ++
  (" *\n" ++
  (" * @param \x7bRequest\x7d req - The request object containing an array of " ++
  (raw ++
  (" data in the body.\n" ++
  (" * @param \x7bResponse\x7d res - The response object used to send the response.\n" ++
  (" * @returns \x7bvoid\x7d\n" ++
  (" */\n" ++
  ("export const updateMany" ++
  (cap ++
  (" = catchAsync(async (req: Request, res: Response) => \x7b\n" ++
  ("  // Call the service method to update multiple " ++
  (raw ++
  ("s and get the result\n" ++
  ("  const result = await " ++
  (res ++
  ("Services.updateMany" ++
  (cap ++
  ("(req.body);\n" ++
  ("  // Send a success response with the updated " ++
  (raw ++
  ("s data\n" ++
  ("  ServerResponse(res, true, 200, \x27" ++
  (cap ++
  ("s updated successfully\x27, result);\n" ++
  ("\x7d);\n" ++
  ("\n" ++
  ("/**\n" ++
  (" * Controller function to handle the deletion of a single " ++
  (raw ++
  (".\n" ++
  (" *\n" ++
  (" * @param \x7bRequest\x7d req - The request object containing the ID of the " ++
  (raw ++
  (" to delete in URL parameters.\n" ++
  (" * @param \x7bResponse\x7d res - The response object used to send the response.\n" ++
  (" * @returns \x7bvoid\x7d\n" ++
  (" */\n" ++
  ("export const delete" ++
  (cap ++
  (" = catchAsync(async (req: Request, res: Response) => \x7b\n" ++
  ("  const \x7b id \x7d = req.params;\n" ++
  ("  // Call the service method to delete the " ++
  (raw ++
  (" by ID\n" ++
  ("  await " ++
  (res ++
  ("Services.delete" ++
  (cap ++
  ("(id);\n" ++
  ("  // Send a success response confirming the deletion\n" ++
  ("  ServerResponse(res, true, 200, \x27" ++
  (cap ++
  (" deleted successfully\x27);\n" ++
  ("\x7d);\n" ++
  ("\n" ++
  ("/**\n" ++
  (" * Controller function to handle the deletion of multiple " ++
  (raw ++
  ("s.\n" ++
  (" *\n" ++
  (" * @param \x7bRequest\x7d req - The request object containing an array of IDs of " ++
  (raw ++
  (" to delete in the body.\n" ++
  (" * @param \x7bResponse\x7d res - The response object used to send the response.\n" ++
  (" * @returns \x7bvoid\x7d\n" ++
  (" */\n" ++
  ("export const deleteMany" ++
  (cap ++
  (" = catchAsync(async (req: Request, res: Response) => \x7b\n" ++
  ("  // Call the service method to delete multiple " ++
  (raw ++
  ("s and get the result\n" ++
  ("  await " ++
  (res ++
  ("Services.deleteMany" ++
  (cap ++
  ("(req.body);\n" ++
  ("  // Send a success response confirming the deletions\n" ++
  ("  ServerResponse(res, true, 200, \x27" ++
  (cap ++
  ("s deleted successfully\x27);\n" ++
  ("\x7d);\n" ++
  ("\n" ++
  ("/**\n" ++
  (" * Controller function to handle the retrieval of a single " ++
  (raw ++
  (" by ID.\n" ++
  (" *\n" ++
  (" * @param \x7bRequest\x7d req - The request object containing the ID of the " ++
  (raw ++
  (" to retrieve in URL parameters.\n" ++
  (" * @param \x7bResponse\x7d res - The response object used to send the response.\n" ++
  (" * @returns \x7bvoid\x7d\n" ++
  (" */\n" ++
  ("export const get" ++
  (cap ++
  ("ById = catchAsync(async (req: Request, res: Response) => \x7b\n" ++
  ("  const \x7b id \x7d = req.params;\n" ++
  ("  // Call the service method to get the " ++
  (raw ++
  (" by ID and get the result\n" ++
  ("  const result = await " ++
  (res ++
  ("Services.get" ++
  (cap ++
  ("ById(id);\n" ++
  ("  // Send a success response with the retrieved " ++
  (raw ++
  (" data\n" ++
  ("  ServerResponse(res, true, 200, \x27" ++
  (cap ++
  (" retrieved successfully\x27, result);\n" ++
  ("\x7d);\n" ++
  ("\n" ++
  ("/**\n" ++
  (" * Controller function to handle the retrieval of multiple " ++
  (raw ++
  ("s.\n" ++
  (" *\n" ++
  (" * @param \x7bRequest\x7d req - The request object containing query parameters for filtering.\n" ++
  (" * @param \x7bResponse\x7d res - The response object used to send the response.\n" ++
  (" * @returns \x7bvoid\x7d\n" ++
  (" */\n" ++
  ("export const getMany" ++
  (cap ++
  (" = catchAsync(async (req: Request, res: Response) => \x7b\n" ++
  ("  // Type assertion for query parameters\n" ++
  ("  const query = req.query as unknown as \x7b searchKey?: string; showPerPage: number; pageNo: number \x7d;\n" ++
  ("  // Call the service method to get multiple " ++
  (raw ++
  ("s based on query parameters and get the result\n" ++
  ("  const \x7b" ++
  (raw ++
  ("s, totalData, totalPages \x7d = await " ++
  (res ++
  ("Services.getMany" ++
  (cap ++
  ("(\x7b\x7d,query.searchKey, query.showPerPage, query.pageNo);\n" ++
  ("  // Send a success response with the retrieved " ++
  (raw ++
  ("s data\n" ++
  ("  ServerResponse(res, true, 200, \x27" ++
  (cap ++
  ("s retrieved successfully\x27, \x7b" ++
  (raw ++
  ("s, totalData, totalPages\x7d);\n" ++
  ("\x7d);\n" ++
  ("    "))))))))))))))))))))))))))))))))))))))))))))))))))))))))))))))))))))))))))))))))))))))))))))))))))))))))))))))))))))))))))))))))))))))))))))))))))))))))))))))))))))))))))))))))))))))))))))))))))))))))))))))))))))))))))))))))))))))))))))))))))))))))))))

def validationContent (_raw res cap : String) : String :=
  "\n" ++
  ("import \x7b NextFunction, Request, Response \x7d from \x27express\x27;\n" ++
  ("import \x7b z \x7d from \x27zod\x27;\n" ++
  ("import zodErrorHandler from \x27../../handlers/zod-error-handler\x27;\n" ++
  ("\n" ++
  ("/**\n" ++
  (" * Zod schema for validating " ++
  (res ++
  (" data during creation.\n" ++
  (" */\n" ++
  ("const zodCreate" ++
  (cap ++
  ("Schema = z.object(\x7b\n" ++
  ("  // Define fields required for creating a new " ++
  (res ++
  (".\n" ++
  ("  // Example:\n" ++
  ("  // filedName: z.string(\x7b required_error: \x27Please provide a filedName.\x27 \x7d).min(1, \"Can\x27t be empty.\"),\n" ++
  ("\x7d).strict();\n" ++
  ("\n" ++
  ("/**\n" ++
  (" * Middleware function to validate " ++
  (res ++
  (" creation data using Zod schema.\n" ++
  (" * @param \x7bRequest\x7d req - The request object.\n" ++
  (" * @param \x7bResponse\x7d res - The response object.\n" ++
  (" * @param \x7bNextFunction\x7d next - The next middleware function.\n" ++
  (" * @returns \x7bvoid\x7d\n" ++
  (" */\n" ++
  ("export const validateCreate" ++
  (cap ++
  (" = (req: Request, res: Response, next: NextFunction) => \x7b\n" ++
  ("  // Validate the request body for creating a new " ++
  (res ++
  ("\n" ++
  ("  const parseResult = zodCreate" ++
  (cap ++
  ("Schema.safeParse(req.body);\n" ++
  ("\n" ++
  ("  // If validation fails, send an error response using the Zod error handler\n" ++
  ("  if (!parseResult.success) \x7b\n" ++
  ("    return zodErrorHandler(req, res, parseResult.error);\n" ++
  ("  \x7d\n" ++
  ("\n" ++
  ("  // If validation passes, proceed to the next middleware function\n" ++
  ("  return next();\n" ++
  ("\x7d;\n" ++
  ("\n" ++
  ("/**\n" ++
  (" * Zod schema for validating multiple " ++
  (res ++
  (" data during creation.\n" ++
  (" */\n" ++
  ("const zodCreateMany" ++
  (cap ++
  ("Schema = z.array(zodCreate" ++
  (cap ++
  ("Schema);\n" ++
  ("\n" ++
  ("/**\n" ++
  (" * Middleware function to validate multiple " ++
  (res ++
  (" creation data using Zod schema.\n" ++
  (" * @param \x7bRequest\x7d req - The request object.\n" ++
  (" * @param \x7bResponse\x7d res - The response object.\n" ++
  (" * @param \x7bNextFunction\x7d next - The next middleware function.\n" ++
  (" * @returns \x7bvoid\x7d\n" ++
  (" */\n" ++
  ("export const validateCreateMany" ++
  (cap ++
  (" = (req: Request, res: Response, next: NextFunction) => \x7b\n" ++
  ("  const parseResult = zodCreateMany" ++
  (cap ++
  ("Schema.safeParse(req.body);\n" ++
  ("  if (!parseResult.success) \x7b\n" ++
  ("    return zodErrorHandler(req, res, parseResult.error);\n" ++
  ("  \x7d\n" ++
  ("  return next();\n" ++
  ("\x7d;\n" ++
  ("\n" ++
  ("/**\n" ++
  (" * Zod schema for validating " ++
  (res ++
  (" data during updates.\n" ++
  (" */\n" ++
  ("const zodUpdate" ++
  (cap ++
  ("Schema = z.object(\x7b\n" ++
  ("  // Define fields required for updating an existing " ++
  (res ++
  (".\n" ++
  ("  // Example:\n" ++
  ("  // fieldName: z.string(\x7b required_error: \x27Please provide a filedName.\x27 \x7d).optional(), // Fields can be optional during updates\n" ++
  ("\x7d).strict();\n" ++
  ("\n" ++
  ("/**\n" ++
  (" * Middleware function to validate " ++
  (res ++
  (" update data using Zod schema.\n" ++
  (" * @param \x7bRequest\x7d req - The request object.\n" ++
  (" * @param \x7bResponse\x7d res - The response object.\n" ++
  (" * @param \x7bNextFunction\x7d next - The next middleware function.\n" ++
  (" * @returns \x7bvoid\x7d\n" ++
  (" */\n" ++
  ("export const validateUpdate" ++
  (cap ++
  (" = (req: Request, res: Response, next: NextFunction) => \x7b\n" ++
  ("  // Validate the request body for updating an existing " ++
  (res ++
  ("\n" ++
  ("  const parseResult = zodUpdate" ++
  (cap ++
  ("Schema.safeParse(req.body);\n" ++
  ("\n" ++
  ("  // If validation fails, send an error response using the Zod error handler\n" ++
  ("  if (!parseResult.success) \x7b\n" ++
  ("    return zodErrorHandler(req, res, parseResult.error);\n" ++
  ("  \x7d\n" ++
  ("\n" ++
  ("  // If validation passes, proceed to the next middleware function\n" ++
  ("  return next();\n" ++
  ("\x7d;\n" ++
  ("\n" ++
  ("/**\n" ++
  (" * Zod schema for validating multiple " ++
  (res ++
  (" data during updates.\n" ++
  (" */\n" ++
  ("const zodUpdateMany" ++
  (cap ++
  ("Schema = z.array(zodUpdate" ++
  (cap ++
  ("Schema);\n" ++
  ("\n" ++
  ("\n" ++
  ("/**\n" ++
  (" * Middleware function to validate multiple " ++
  (res ++
  (" update data using Zod schema.\n" ++
  (" * @param \x7bRequest\x7d req - The request object.\n" ++
  (" * @param \x7bResponse\x7d res - The response object.\n" ++
  (" * @param \x7bNextFunction\x7d next - The next middleware function.\n" ++
  (" * @returns \x7bvoid\x7d\n" ++
  (" */\n" ++
  ("export const validateUpdateMany" ++
  (cap ++
  (" = (req: Request, res: Response, next: NextFunction) => \x7b\n" ++
  ("  const parseResult = zodUpdateMany" ++
  (cap ++
  ("Schema.safeParse(req.body);\n" ++
  ("  if (!parseResult.success) \x7b\n" ++
  ("    return zodErrorHandler(req, res, parseResult.error);\n" ++
  ("  \x7d\n" ++
  ("  return next();\n" ++
  ("\x7d;\n" ++
  ("    ")))))))))))))))))))))))))))))))))))))))))))))))))))))))))))))))))))))))))))))))))))))))))))))))))))))))))))))))))))))))))))))))))))))))))))))))))))))))))))

def serviceContent (_raw res cap : String) : String :=
  "\n" ++
  ("import \x7b Prisma \x7d from \x27@prisma/client\x27;\n" ++
  ("\n" ++
  ("// Import the Prisma Client instance\n" ++
  ("import \x7b prismaClient \x7d from \x27../../index\x27;\n" ++
  ("\n" ++
  ("/**\n" ++
  (" * Service function to create a new " ++
  (res ++
  (".\n" ++
  (" *\n" ++
  (" * @param data - The data to create a new " ++
  (res ++
  (".\n" ++
  (" * @returns \x7bPromise<" ++
  (cap ++
  (">\x7d - The created " ++
  (res ++
  (".\n" ++
  (" */\n" ++
  ("const create" ++
  (cap ++
  (" = async (data: Prisma." ++
  (cap ++
  ("CreateInput) => \x7b\n" ++
  ("  return await prismaClient." ++
  (res ++
  (".create(\x7b data \x7d);\n" ++
  ("\x7d;\n" ++
  ("\n" ++
  ("/**\n" ++
  (" * Service function to create multiple " ++
  (res ++
  (".\n" ++
  (" *\n" ++
  (" * @param data - An array of data to create multiple " ++
  (res ++
  (".\n" ++
  (" * @returns \x7bPromise<" ++
  (cap ++
  ("[]>\x7d - The created " ++
  (res ++
  (".\n" ++
  (" */\n" ++
  ("const createMany" ++
  (cap ++
  (" = async (data: Prisma." ++
  (cap ++
  ("CreateManyInput[]) => \x7b\n" ++
  ("  return await prismaClient." ++
  (res ++
  (".createMany(\x7b data \x7d);\n" ++
  ("\x7d;\n" ++
  ("\n" ++
  ("/**\n" ++
  (" * Service function to update a single " ++
  (res ++
  (" by ID.\n" ++
  (" *\n" ++
  (" * @param id - The ID of the " ++
  (res ++
  (" to update.\n" ++
  (" * @param data - The updated data for the " ++
  (res ++
  (".\n" ++
  (" * @returns \x7bPromise<" ++
  (cap ++
  (">\x7d - The updated " ++
  (res ++
  (".\n" ++
  (" */\n" ++
  ("const update" ++
  (cap ++
  (" = async (id: string, data: Prisma." ++
  (cap ++
  ("UpdateInput) => \x7b\n" ++
  ("  return await prismaClient." ++
  (res ++
  (".update(\x7b\n" ++
  ("    where: \x7b id \x7d,\n" ++
  ("    data,\n" ++
  ("  \x7d);\n" ++
  ("\x7d;\n" ++
  ("\n" ++
  ("/**\n" ++
  (" * Service function to update multiple " ++
  (res ++
  (".\n" ++
  (" *\n" ++
  (" * @param data - An array of data to update multiple " ++
  (res ++
  (".\n" ++
  (" * @returns \x7bPromise<" ++
  (cap ++
  ("[]>\x7d - The updated " ++
  (res ++
  (".\n" ++
  (" */\n" ++
  ("const updateMany" ++
  (cap ++
  (" = async (data: \x7b id: string; updates: Prisma." ++
  (cap ++
  ("UpdateInput\x7d[]) => \x7b\n" ++
  ("  const updatePromises = data.map((\x7b id, updates \x7d) =>\n" ++
  ("    prismaClient." ++
  (res ++
  (".update(\x7b\n" ++
  ("      where: \x7b id \x7d,\n" ++
  ("      data: updates,\n" ++
  ("    \x7d)\n" ++
  ("  );\n" ++
  ("  return await Promise.all(updatePromises);\n" ++
  ("\x7d;\n" ++
  ("\n" ++
  ("/**\n" ++
  (" * Service function to delete a single " ++
  (res ++
  (" by ID.\n" ++
  (" *\n" ++
  (" * @param id - The ID of the " ++
  (res ++
  (" to delete.\n" ++
  (" * @returns \x7bPromise<" ++
  (cap ++
  (">\x7d - The deleted " ++
  (res ++
  (".\n" ++
  (" */\n" ++
  ("const delete" ++
  (cap ++
  (" = async (id: string) => \x7b\n" ++
  ("  return await prismaClient." ++
  (res ++
  (".delete(\x7b\n" ++
  ("    where: \x7b id \x7d,\n" ++
  ("  \x7d);\n" ++
  ("\x7d;\n" ++
  ("\n" ++
  ("/**\n" ++
  (" * Service function to delete multiple " ++
  (res ++
  (".\n" ++
  (" *\n" ++
  (" * @param ids - An array of IDs of " ++
  (res ++
  (" to delete.\n" ++
  (" * @returns \x7bPromise<" ++
  (cap ++
  ("[]>\x7d - The deleted " ++
  (res ++
  (".\n" ++
  (" */\n" ++
  ("const deleteMany" ++
  (cap ++
  (" = async (ids: string[]) => \x7b\n" ++
  ("  return await prismaClient." ++
  (res ++
  (".deleteMany(\x7b\n" ++
  ("    where: \x7b\n" ++
  ("      id: \x7b in: ids \x7d,\n" ++
  ("    \x7d,\n" ++
  ("  \x7d);\n" ++
  ("\x7d;\n" ++
  ("\n" ++
  ("/**\n" ++
  (" * Service function to retrieve a single " ++
  (res ++
  (" by ID.\n" ++
  (" *\n" ++
  (" * @param id - The ID of the " ++
  (res ++
  (" to retrieve.\n" ++
  (" * @returns \x7bPromise<" ++
  (cap ++
  (">\x7d - The retrieved " ++
  (res ++
  (".\n" ++
  (" */\n" ++
  ("const get" ++
  (cap ++
  ("ById = async (id: string) => \x7b\n" ++
  ("  return await prismaClient." ++
  (res ++
  (".findUnique(\x7b\n" ++
  ("    where: \x7b id \x7d,\n" ++
  ("  \x7d);\n" ++
  ("\x7d;\n" ++
  ("\n" ++
  ("/**\n" ++
  (" * Service function to retrieve multiple " ++
  (res ++
  ("s based on query parameters.\n" ++
  (" *\n" ++
  (" * @param query - The query parameters for filtering " ++
  (res ++
  ("s.\n" ++
  (" * @param \x7bstring | undefined\x7d searchKey - The optional search key for filtering " ++
  (res ++
  ("s by " ++
  (res ++
  (" fields.\n" ++
  (" * @param \x7bnumber\x7d showPerPage - The number of items to show per page.\n" ++
  (" * @param \x7bnumber\x7d pageNo - The page number for pagination.\n" ++
  (" * @returns \x7bPromise<\x7b " ++
  (cap ++
  ("s: Prisma." ++
  (cap ++
  ("[], total: number, totalPages: number \x7d>\x7d - The retrieved " ++
  (res ++
  ("s, total count, and total pages.\n" ++
  (" */\n" ++
  ("const getMany" ++
  (cap ++
  (" = async (\n" ++
  ("  query: Prisma." ++
  (cap ++
  ("WhereInput,\n" ++
  ("  searchKey: string | undefined,\n" ++
  ("  showPerPage: number,\n" ++
  ("  pageNo: number\n" ++
  ("): Promise<\x7b " ++
  (res ++
  ("s: Prisma." ++
  (cap ++
  ("[]; totalData: number; totalPages: number \x7d> => \x7b\n" ++
  ("  // Build the search filter based on the search key, if provided\n" ++
  ("  const searchFilter: Prisma." ++
  (cap ++
  ("WhereInput = \x7b\n" ++
  ("    ...query,\n" ++
  ("    OR: searchKey\n" ++
  ("      ? [\n" ++
  ("          \x7b filedName: \x7b contains: searchKey, mode: \x27insensitive\x27 \x7d \x7d,\n" ++
  ("          // Add more fields as needed\n" ++
  ("        ]\n" ++
  ("      : undefined,\n" ++
  ("  \x7d;\n" ++
  ("\n" ++
  ("  // Calculate the number of items to skip based on the page number\n" ++
  ("  const skipItems = (pageNo - 1) * showPerPage;\n" ++
  ("\n" ++
  ("  // Find the total count of matching " ++
  (res ++
  ("s\n" ++
  ("  const totalData = await prismaClient." ++
  (res ++
  (".count(\x7b\n" ++
  ("    where: searchFilter,\n" ++
  ("  \x7d);\n" ++
  ("\n" ++
  ("  // Find " ++
  (res ++
  ("s based on the search filter with pagination\n" ++
  ("  const " ++
  (res ++
  ("s = await prismaClient." ++
  (res ++
  (".findMany(\x7b\n" ++
  ("    where: searchFilter,\n" ++
  ("    skip: skipItems,\n" ++
  ("    take: showPerPage,\n" ++
  ("    select: \x7b\n" ++
  ("      // filed: true,\n" ++
  ("      // filed: false,\n" ++
  ("      // Add other fields as needed, excluding sensitive ones\n" ++
  ("    \x7d,\n" ++
  ("  \x7d);\n" ++
  ("\n" ++
  ("  // Calculate the total number of pages\n" ++
  ("  const totalPages = Math.ceil(totalData / showPerPage);\n" ++
  ("\n" ++
  ("  return \x7b " ++
  (res ++
  ("s, totalData, totalPages \x7d;\n" ++
  ("\x7d;\n" ++
  ("\n" ++
  ("export const " ++
  (res ++
  ("Services = \x7b\n" ++
  ("  create" ++
  (cap ++
  (",\n" ++
  ("  createMany" ++
  (cap ++
  (",\n" ++
  ("  update" ++
  (cap ++
  (",\n" ++
  ("  updateMany" ++
  (cap ++
  (",\n" ++
  ("  delete" ++
  (cap ++
  (",\n" ++
  ("  deleteMany" ++
  (cap ++
  (",\n" ++
  ("  get" ++
  (cap ++
  ("ById,\n" ++
  ("  getMany" ++
  (cap ++
  (",\n" ++
  ("\x7d;\n" ++
  ("    "))))))))))))))))))))))))))))))))))))))))))))))))))))))))))))))))))))))))))))))))))))))))))))))))))))))))))))))))))))))))))))))))))))))))))))))))))))))))))))))))))))))))))))))))))))))))))))))))))))))))))))))))))))))))))))))))))))))))))))))))))))))))))))))))))))))))))))))))))))))))))))))))))))))))))))))))

/-! ## The existing-file reconciler of `.bin/raw-cli.js` (lines 564-701)

Console output is modelled by structured events, one per `console.log`
call; `renderLogLine` gives the exact text each event prints (with the
ANSI color codes of the source).  The file system is modelled by the
listing of the cwd-relative `src/modules` directory together with an
existence flag for the script-relative module directory that the action
creates up front; `sameRoot` records whether those two paths coincide
(they do when the tool runs from the project root). -/

/-- One entry of `fs.readdirSync(src/modules)`: its name, whether
`statSync` reports a directory, and (for directories) its file listing. -/
structure DirEnt where
  name : String
  isDir : Bool
  files : List String
deriving DecidableEq, BEq

/-- One `console.log` call of the reconciler. -/
inductive LogLine where
  | createdFile (relPath : String) (bytes : Nat)
  | moduleAlready (name : String)
  | moduleSomeMissing (name : String)
  | missingEntry (index : Nat) (file : String)
  | invalidOption
  | provideName
  | moduleNotFound (name : String)
deriving DecidableEq, BEq

def RED : String := "\x1b[31m"

def GREEN : String := "\x1b[32m"

def BLUE : String := "\x1b[34m"

def RESET : String := "\x1b[0m"

/-- The exact console text of each log event, from the source's
`console.log` format strings. -/
def renderLogLine : LogLine → String
  | LogLine.createdFile relPath bytes =>
      GREEN ++ "CREATE " ++ RESET ++ relPath ++ " " ++ BLUE ++ "(" ++ toString bytes ++
        " bytes)" ++ RESET
  | LogLine.moduleAlready n => RED ++ capitalize n ++ " module already exists." ++ RESET
  | LogLine.moduleSomeMissing n =>
      GREEN ++ capitalize n ++ " " ++ RESET ++ "module exists, but some files are missing:"
  | LogLine.missingEntry index file => GREEN ++ toString (index + 1) ++ ". " ++ file ++ RESET
  | LogLine.invalidOption => RED ++ "Invalid option. No files will be created." ++ RESET
  | LogLine.provideName => RED ++ "Please provide a module name." ++ RESET
  | LogLine.moduleNotFound n => RED ++ "Module " ++ n ++ " not found." ++ RESET

/-- One `fs.writeFileSync` call: the file name, the content written
(`content.trim()`), and the byte count the accompanying log reports
(`Buffer.byteLength(content, 'utf8')`, untrimmed). -/
structure WriteEv where
  fileName : String
  written : String
  loggedBytes : Nat
deriving DecidableEq, BEq

/-- The `getExpectedFiles` of `.bin/raw-cli.js` lines 572-579. -/
def getExpectedFiles (moduleName : String) : List String :=
  [moduleName ++ ".controller.ts", moduleName ++ ".route.ts",
    moduleName ++ ".service.ts", moduleName ++ ".validation.ts"]

/-- The `switch (file)` of `createSingleFile` (lines 659-672): which
template content a file name receives.  The template closures capture
`args[0]`, `resourceName` and `capitalizedResourceName` of the action. -/
def contentFor (m file : String) : Option String :=
  if file = m ++ ".route.ts" then
    some (routeContent m (resourceNameOf m) (capitalize (resourceNameOf m)))
  else if file = m ++ ".controller.ts" then
    some (controllerContent m (resourceNameOf m) (capitalize (resourceNameOf m)))
  else if file = m ++ ".validation.ts" then
    some (validationContent m (resourceNameOf m) (capitalize (resourceNameOf m)))
  else if file = m ++ ".service.ts" then
    some (serviceContent m (resourceNameOf m) (capitalize (resourceNameOf m)))
  else none

/-- The `createSingleFile` of lines 655-678: write the trimmed content, log
one CREATE line with the relative path and the untrimmed byte count
(`none` models the `content.trim()` crash on an unexpected file name). -/
def createSingleFile (m file : String) : Option (WriteEv × LogLine) :=
  (contentFor m file).map fun content =>
    (⟨file, jsTrim content, jsByteLength content⟩,
      LogLine.createdFile ("src/modules/" ++ m ++ "/" ++ file) (jsByteLength content))

/-- The write and log events of one reconciler run. -/
structure Effects where
  writes : List WriteEv
  logs : List LogLine
deriving DecidableEq, BEq

def noEffects : Effects := ⟨[], []⟩

/-- The `createAllFiles` of lines 681-685: `createSingleFile` on each missing
file in order. -/
def createAllFiles (m : String) : List String → Option Effects
  | [] => some noEffects
  | f :: fs => do
    let pair ← createSingleFile m f
    let rest ← createAllFiles m fs
    pure ⟨pair.1 :: rest.writes, pair.2 :: rest.logs⟩

/-- The operator's console input: the answer to the yes/create prompt
and the per-file answers of the one-by-one flow, in order. -/
structure OpAnswers where
  main : String
  perFile : List String

/-- The per-file loop of the `yes`/`y` branch (lines 626-634): one
question per missing file, creating it on `yes`/`y`. -/
def perFileCreate (m : String) : List String → List String → Option Effects
  | [], _ => some noEffects
  | f :: fs, answers =>
    if jsToLowerCase (answers.headD "") = "yes" ∨ jsToLowerCase (answers.headD "") = "y" then do
      let pair ← createSingleFile m f
      let rest ← perFileCreate m fs answers.tail
      pure ⟨pair.1 :: rest.writes, pair.2 :: rest.logs⟩
    else
      perFileCreate m fs answers.tail

/-- Model of `expectedFiles.filter((file) => !foundFiles.includes(file))` (line 608). -/
def missingOf (m : String) (found : List String) : List String :=
  (getExpectedFiles m).filter fun f => !(found.contains f)

/-- The triage of lines 610-642, run when the module directory was found:
complete / some-missing (interactive) / all-missing. -/
def triage (m : String) (found : List String) (ans : OpAnswers) : Option Effects :=
  let missing := missingOf m found
  if missing.length = 0 then
    some ⟨[], [LogLine.moduleAlready m]⟩
  else if 0 < missing.length ∧ missing.length < (getExpectedFiles m).length then
    let header := LogLine.moduleSomeMissing m ::
      missing.enum.map fun p => LogLine.missingEntry p.1 p.2
    if jsToLowerCase ans.main = "yes" ∨ jsToLowerCase ans.main = "y" then
      (perFileCreate m missing ans.perFile).map fun eff => ⟨eff.writes, header ++ eff.logs⟩
    else if jsToLowerCase ans.main = "create" ∨ jsToLowerCase ans.main = "c" then
      (createAllFiles m missing).map fun eff => ⟨eff.writes, header ++ eff.logs⟩
    else
      some ⟨[], header ++ [LogLine.invalidOption]⟩
  else
    createAllFiles m missing

/-- The loop guard `module === moduleName && stat.isDirectory()` of
`searchFile` (lines 599-605). -/
def entryMatches (m : String) (e : DirEnt) : Bool := e.name == m && e.isDir

/-- The `searchFile` of lines 589-652: scan the cwd `src/modules` listing for
a directory named after the module; triage it when found, else report
`false` so the entry point logs "not found". -/
def searchFile (entries : List DirEnt) (m : String) (ans : OpAnswers) :
    Option (Bool × Effects) :=
  match entries with
  | [] => some (false, noEffects)
  | e :: es =>
    if entryMatches m e then
      (triage m e.files ans).map fun eff => (true, eff)
    else
      searchFile es m ans

/-- The file-system state before/after a run: whether the
script-relative module directory exists, the cwd `src/modules` listing,
and whether the two roots are the same directory. -/
structure FState where
  sameRoot : Bool
  scriptDirExists : Bool
  cwdEntries : List DirEnt
deriving DecidableEq, BEq

/-- Lines 564-569: `if (!fs.existsSync(dir)) fs.mkdirSync(dir)` on the
script-relative module directory, before any search; when the roots
coincide the new (empty) directory also appears in the cwd listing. -/
def mkdirStep (st : FState) (m : String) : FState :=
  if st.scriptDirExists then st
  else
    ⟨st.sameRoot, true,
      if st.sameRoot then st.cwdEntries ++ [⟨m, true, []⟩] else st.cwdEntries⟩

/-- Record the written files inside the matched module directory. -/
def applyWrites (st : FState) (m : String) (ws : List WriteEv) : FState :=
  ⟨st.sameRoot, st.scriptDirExists,
    st.cwdEntries.map fun e =>
      if entryMatches m e then ⟨e.name, e.isDir, e.files ++ ws.map WriteEv.fileName⟩ else e⟩

/-- The whole `resource` action of `.bin/raw-cli.js`: the up-front
`mkdirSync` (lines 564-569) and the entry-point IIFE (lines 687-701)
with its missing-name guard, `searchFile` call and "not found" report. -/
def resourceRun (st : FState) (m : String) (ans : OpAnswers) :
    Option (FState × Effects) :=
  if m = "" then some (mkdirStep st m, ⟨[], [LogLine.provideName]⟩)
  else
    (searchFile (mkdirStep st m).cwdEntries m ans).map fun r =>
      (applyWrites (mkdirStep st m) m r.2.writes,
        if r.1 then r.2 else ⟨r.2.writes, r.2.logs ++ [LogLine.moduleNotFound m]⟩)

/-- The real-directory invariant tying the script-relative existence
check to the cwd listing when both paths are the same directory. -/
def Coupled (st : FState) (m : String) : Prop :=
  st.sameRoot = true → st.scriptDirExists = st.cwdEntries.any fun e => e.name == m

/-! ## The `nested-resource` command of the companion CLI script

`parts = args[0].split('/')`, `resourceName = parts.pop()`,
`resourceCamelCaseName = !specialCharRegex.test(args[0]) ?
resourceName.toLowerCase() : toCamelCase(resourceName)` (lines 508-520);
the shared-helper import prefix is
`Array(nestedFolders.length + 2).fill('..').join('/')` (lines 641-646,
773-775, 829-831). -/

def splitOnSlash (s : String) : List String := (splitOnSep '/' s.data).map String.mk

/-- Model of `parts.pop()`: the final path segment (the resource name). -/
def lastSegOf (s : String) : String := ((splitOnSlash s).getLast?).getD ""

/-- The folder segments preceding the resource name. -/
def nestedFoldersOf (s : String) : List String := (splitOnSlash s).dropLast

/-- The `resourceCamelCaseName` of the nested action: the special-character
test runs on the whole path argument, the conversion on the final
segment only. -/
def nestedResourceCamelName (pathArg : String) : String :=
  if !(containsSpecialChar pathArg) then jsToLowerCase (lastSegOf pathArg)
  else toCamelCase (lastSegOf pathArg)

/-- Model of JS `Array.prototype.join('/')`. -/
def joinSlash : List String → String
  | [] => ""
  | [w] => w
  | w :: ws => w ++ "/" ++ joinSlash ws

/-- Model of `Array(n + 2).fill('..').join('/')`. -/
def helperStepsJoin (n : Nat) : String :=
  joinSlash (List.replicate (n + 2) "..")

/-- The parent-directory path emitted for the shared helpers (response
helper, catch-async, zod-error-handler, prisma client index) of a
nested invocation. -/
def sharedHelperPathFor (pathArg : String) : String :=
  helperStepsJoin (nestedFoldersOf pathArg).length

/-- The controller's services import line (nested template, line 640):
`import { ${resourceCamelCaseName}Services } from './${resourceName}.service';`. -/
def nestedControllerServicesImport (pathArg : String) : String :=
  "import \x7b " ++ nestedResourceCamelName pathArg ++ "Services \x7d from './" ++
    lastSegOf pathArg ++ ".service';"

/-- The service file's export head (nested template, line 933):
`export const ${resourceName}Services = {`. -/
def nestedServiceExportHead (pathArg : String) : String :=
  "export const " ++ lastSegOf pathArg ++ "Services = \x7b"

/-- The identifier under which the nested controller imports the
services object. -/
def nestedControllerServicesIdent (pathArg : String) : String :=
  nestedResourceCamelName pathArg ++ "Services"

/-- The identifier under which the nested service file exports the
services object. -/
def nestedServiceExportIdent (pathArg : String) : String :=
  lastSegOf pathArg ++ "Services"

/-- Observable outcome of one CLI invocation: the exit status, the
`console.error` lines, and the names of the files the action writes. -/
structure CliOutcome where
  exitCode : Nat
  errLines : List String
  wroteFiles : List String
deriving DecidableEq, BEq

/-- The flat `resource` action of the companion script writes its four
files unconditionally, in source order (route, controller, validation,
service). -/
def flatResourceFiles (name : String) : List String :=
  [name ++ ".route.ts", name ++ ".controller.ts",
    name ++ ".validation.ts", name ++ ".service.ts"]

/-- Files written by the `nested-resource` action, named after the
final path segment. -/
def nestedResourceFiles (pathArg : String) : List String :=
  [lastSegOf pathArg ++ ".route.ts", lastSegOf pathArg ++ ".controller.ts",
    lastSegOf pathArg ++ ".validation.ts", lastSegOf pathArg ++ ".service.ts"]

/-- The top-level command dispatch of the companion CLI script
(`if/else if/else` on `command`, lines 36, 503, 968-971): recognised
commands run their action and let the process exit normally (status 0);
anything else prints `Unknown command: ...` and calls `process.exit(1)`
before touching the file system. -/
def cliMain (command : String) (cliArgs : List String) : CliOutcome :=
  if command = "resource" then ⟨0, [], flatResourceFiles (cliArgs.headD "")⟩
  else if command = "nested-resource" then ⟨0, [], nestedResourceFiles (cliArgs.headD "")⟩
  else ⟨1, ["Unknown command: " ++ command], []⟩

/-! ## Byte-length and trim lemmas -/

def listByteLen (l : List Char) : Nat := (l.map Char.utf8Size).sum

theorem toNat_charOfNat_of_le (n : Nat) (h : n ≤ 1000) : (Char.ofNat n).toNat = n := by
  have hv : n.isValidChar := Or.inl (by omega)
  simp [Char.ofNat, hv, Char.toNat, Char.ofNatAux, UInt32.toNat, BitVec.toNat_ofNatLt]

theorem toNat_jsLowerChar (c : Char) :
    (jsLowerChar c).toNat = if 65 ≤ c.toNat ∧ c.toNat ≤ 90 then c.toNat + 32 else c.toNat := by
  unfold jsLowerChar
  by_cases h : 65 ≤ c.toNat ∧ c.toNat ≤ 90
  · have hb : (65 ≤ c.toNat && c.toNat ≤ 90) = true := by
      simp [decide_eq_true_eq]; omega
    rw [if_pos hb, if_pos h, toNat_charOfNat_of_le _ (by omega)]
  · have hb : (65 ≤ c.toNat && c.toNat ≤ 90) = false := by
      simp [decide_eq_true_eq]; omega
    rw [if_neg (by simp [hb]), if_neg h]

theorem toNat_jsUpperChar (c : Char) :
    (jsUpperChar c).toNat = if 97 ≤ c.toNat ∧ c.toNat ≤ 122 then c.toNat - 32 else c.toNat := by
  unfold jsUpperChar
  by_cases h : 97 ≤ c.toNat ∧ c.toNat ≤ 122
  · have hb : (97 ≤ c.toNat && c.toNat ≤ 122) = true := by
      simp [decide_eq_true_eq]; omega
    rw [if_pos hb, if_pos h, toNat_charOfNat_of_le _ (by omega)]
  · have hb : (97 ≤ c.toNat && c.toNat ≤ 122) = false := by
      simp [decide_eq_true_eq]; omega
    rw [if_neg (by simp [hb]), if_neg h]

theorem isAsciiAlpha_iff (c : Char) :
    isAsciiAlpha c = true ↔ (97 ≤ c.toNat ∧ c.toNat ≤ 122) ∨ (65 ≤ c.toNat ∧ c.toNat ≤ 90) := by
  simp [isAsciiAlpha, decide_eq_true_eq]

theorem isSpecialChar_iff (c : Char) :
    isSpecialChar c = true ↔
      (48 ≤ c.toNat ∧ c.toNat ≤ 57) ∨
      c.toNat ∈ ([33, 64, 35, 36, 37, 94, 38, 42, 40, 41, 95, 43, 123, 125, 91, 93, 58, 59,
        34, 39, 60, 62, 44, 46, 63, 47, 126, 96, 124, 45, 61] : List Nat) ∨
      (c.toNat ∈ ([9, 10, 11, 12, 13, 32, 160, 0x1680, 0x2028, 0x2029, 0x202f, 0x205f, 0x3000,
        0xfeff] : List Nat) ∨ (0x2000 ≤ c.toNat ∧ c.toNat ≤ 0x200a)) := by
  simp only [isSpecialChar, isJsSpace, List.contains, Bool.or_eq_true, decide_eq_true_eq,
    List.elem_eq_mem, List.mem_cons, List.not_mem_nil, or_false, Bool.and_eq_true]
  omega

/-- No special character is an ASCII letter. -/
theorem not_alpha_of_special (c : Char) (h : isSpecialChar c = true) :
    isAsciiAlpha c = false := by
  rw [isSpecialChar_iff] at h
  rw [Bool.eq_false_iff]
  intro ha
  rw [isAsciiAlpha_iff] at ha
  simp only [List.mem_cons, List.not_mem_nil, or_false] at h
  omega

/-- Lowercasing never produces a special character from a non-special one. -/
theorem jsLowerChar_not_special (c : Char) (h : isSpecialChar c = false) :
    isSpecialChar (jsLowerChar c) = false := by
  rw [Bool.eq_false_iff] at h ⊢
  intro hs
  rw [isSpecialChar_iff] at hs
  rw [toNat_jsLowerChar] at hs
  by_cases hc : 65 ≤ c.toNat ∧ c.toNat ≤ 90
  · rw [if_pos hc] at hs
    simp only [List.mem_cons, List.not_mem_nil, or_false] at hs
    omega
  · rw [if_neg hc] at hs
    exact h (by rw [isSpecialChar_iff]; exact hs)

/-- Lowercasing a character twice is the same as doing it once. -/
theorem jsLowerChar_idem (c : Char) : jsLowerChar (jsLowerChar c) = jsLowerChar c := by
  unfold jsLowerChar
  by_cases h : 65 ≤ c.toNat ∧ c.toNat ≤ 90
  · have hb : (65 ≤ c.toNat && c.toNat ≤ 90) = true := by
      simp [decide_eq_true_eq]; omega
    rw [if_pos hb]
    have ht : (Char.ofNat (c.toNat + 32)).toNat = c.toNat + 32 :=
      toNat_charOfNat_of_le _ (by omega)
    have hb2 : (65 ≤ (Char.ofNat (c.toNat + 32)).toNat &&
        (Char.ofNat (c.toNat + 32)).toNat ≤ 90) = false := by
      rw [ht]; simp [decide_eq_true_eq]; omega
    rw [if_neg (by simp [hb2])]
  · have hb : (65 ≤ c.toNat && c.toNat ≤ 90) = false := by
      simp [decide_eq_true_eq]; omega
    rw [if_neg (by simp [hb]), if_neg (by simp [hb])]

/-- Case-mapping an ASCII letter yields an ASCII letter. -/
theorem isAsciiAlpha_jsLowerChar (c : Char) (h : isAsciiAlpha c = true) :
    isAsciiAlpha (jsLowerChar c) = true := by
  rw [isAsciiAlpha_iff] at h
  rw [isAsciiAlpha_iff, toNat_jsLowerChar]
  by_cases hc : 65 ≤ c.toNat ∧ c.toNat ≤ 90
  · rw [if_pos hc]; omega
  · rw [if_neg hc]; omega

theorem isAsciiAlpha_jsUpperChar (c : Char) (h : isAsciiAlpha c = true) :
    isAsciiAlpha (jsUpperChar c) = true := by
  rw [isAsciiAlpha_iff] at h
  rw [isAsciiAlpha_iff, toNat_jsUpperChar]
  by_cases hc : 97 ≤ c.toNat ∧ c.toNat ≤ 122
  · rw [if_pos hc]; omega
  · rw [if_neg hc]; omega

/-- An ASCII letter is not a hyphen. -/
theorem alpha_ne_hyphen (c : Char) (h : isAsciiAlpha c = true) : c ≠ '-' := by
  intro hc
  subst hc
  simp [isAsciiAlpha] at h

/-! ## Basic lemmas about the pipeline -/

/-- Every character of `hyphenateGo b l` is a letter or a hyphen. -/
theorem mem_hyphenateGo (b : Bool) (l : List Char) (c : Char)
    (h : c ∈ hyphenateGo b l) : isAsciiAlpha c = true ∨ c = '-' := by
  induction l generalizing b with
  | nil => simp [hyphenateGo] at h
  | cons a t ih =>
    unfold hyphenateGo at h
    by_cases ha : isAsciiAlpha a
    · rw [if_pos ha] at h
      rcases List.mem_cons.1 h with rfl | hm
      · exact Or.inl ha
      · exact ih _ hm
    · rw [if_neg ha] at h
      cases b with
      | true => exact ih _ (by simpa using h)
      | false =>
        simp only [Bool.false_eq_true, if_false] at h
        rcases List.mem_cons.1 h with rfl | hm
        · exact Or.inr rfl
        · exact ih _ hm

/-- Letters of the input survive `hyphenateGo`. -/
theorem alpha_mem_hyphenateGo (b : Bool) (l : List Char) (c : Char)
    (hc : c ∈ l) (ha : isAsciiAlpha c = true) : c ∈ hyphenateGo b l := by
  induction l generalizing b with
  | nil => cases hc
  | cons a t ih =>
    unfold hyphenateGo
    rcases List.mem_cons.1 hc with rfl | hm
    · rw [if_pos ha]; exact List.mem_cons_self _ _
    · by_cases hpa : isAsciiAlpha a
      · rw [if_pos hpa]; exact List.mem_cons_of_mem _ (ih _ hm)
      · rw [if_neg hpa]
        cases b with
        | true => simpa using ih _ hm
        | false =>
          simp only [Bool.false_eq_true, if_false]
          exact List.mem_cons_of_mem _ (ih _ hm)

/-- A member of a `dropWhile` result is a member of the original list. -/
theorem mem_of_mem_dropWhile {α : Type} [DecidableEq α] (p : α → Bool) (l : List α) (a : α)
    (h : a ∈ l.dropWhile p) : a ∈ l :=
  (List.dropWhile_sublist p).mem h

/-- An element not satisfying the predicate survives `dropWhile`. -/
theorem mem_dropWhile_of_not {α : Type} (p : α → Bool) (l : List α) (a : α)
    (hm : a ∈ l) (hp : p a = false) : a ∈ l.dropWhile p := by
  induction l with
  | nil => cases hm
  | cons x t ih =>
    rw [List.dropWhile_cons]
    by_cases hx : p x = true
    · simp only [hx, if_true]
      rcases List.mem_cons.1 hm with rfl | hmem
      · rw [hp] at hx; cases hx
      · exact ih hmem
    · simp only [hx, if_false]
      exact hm

theorem mem_of_mem_stripEdgeHyphens (l : List Char) (c : Char)
    (h : c ∈ stripEdgeHyphens l) : c ∈ l := by
  unfold stripEdgeHyphens at h
  rw [List.mem_reverse] at h
  have h1 := mem_of_mem_dropWhile _ _ _ h
  rw [List.mem_reverse] at h1
  exact mem_of_mem_dropWhile _ _ _ h1

theorem mem_stripEdgeHyphens_of_ne (l : List Char) (c : Char)
    (hm : c ∈ l) (hc : c ≠ '-') : c ∈ stripEdgeHyphens l := by
  unfold stripEdgeHyphens
  rw [List.mem_reverse]
  apply mem_dropWhile_of_not
  · rw [List.mem_reverse]
    apply mem_dropWhile_of_not _ _ _ hm
    simp [hc]
  · simp [hc]

theorem consHead_ne_nil (c : Char) (L : List (List Char)) : consHead c L ≠ [] := by
  cases L <;> simp [consHead]

theorem splitOnSep_ne_nil (sep : Char) (l : List Char) : splitOnSep sep l ≠ [] := by
  induction l with
  | nil => simp [splitOnSep]
  | cons c cs ih =>
    unfold splitOnSep
    by_cases hc : c = sep
    · simp [hc]
    · simp only [hc, if_false]
      exact consHead_ne_nil _ _

/-- Characters of the words produced by `splitOnSep` come from the input
and are never the separator. -/
theorem mem_splitOnSep (sep : Char) (l : List Char) (w : List Char) (c : Char)
    (hw : w ∈ splitOnSep sep l) (hc : c ∈ w) : c ∈ l ∧ c ≠ sep := by
  induction l generalizing w with
  | nil =>
    simp only [splitOnSep, List.mem_singleton] at hw
    subst hw; cases hc
  | cons a t ih =>
    unfold splitOnSep at hw
    by_cases ha : a = sep
    · rw [if_pos ha] at hw
      rcases List.mem_cons.1 hw with rfl | hm
      · cases hc
      · have := ih w hm hc
        exact ⟨List.mem_cons_of_mem _ this.1, this.2⟩
    · rw [if_neg ha] at hw
      cases hS : splitOnSep sep t with
      | nil => exact absurd hS (splitOnSep_ne_nil sep t)
      | cons w0 ws =>
        rw [hS] at hw
        simp only [consHead] at hw
        rcases List.mem_cons.1 hw with rfl | hm
        · rcases List.mem_cons.1 hc with rfl | hcm
          · exact ⟨List.mem_cons_self _ _, ha⟩
          · have := ih w0 (by rw [hS]; exact List.mem_cons_self _ _) hcm
            exact ⟨List.mem_cons_of_mem _ this.1, this.2⟩
        · have := ih w (by rw [hS]; exact List.mem_cons_of_mem _ hm) hc
          exact ⟨List.mem_cons_of_mem _ this.1, this.2⟩

/-- A non-separator member of the input lands in some word of `splitOnSep`. -/
theorem exists_word_splitOnSep (sep : Char) (l : List Char) (c : Char)
    (hm : c ∈ l) (hc : c ≠ sep) : ∃ w ∈ splitOnSep sep l, c ∈ w := by
  induction l with
  | nil => cases hm
  | cons a t ih =>
    unfold splitOnSep
    rcases List.mem_cons.1 hm with rfl | hmem
    · rw [if_neg hc]
      cases hS : splitOnSep sep t with
      | nil => exact absurd hS (splitOnSep_ne_nil sep t)
      | cons w0 ws =>
        exact ⟨c :: w0, List.mem_cons_self _ _, List.mem_cons_self _ _⟩
    · rcases ih hmem with ⟨w, hw, hcw⟩
      by_cases ha : a = sep
      · rw [if_pos ha]
        exact ⟨w, List.mem_cons_of_mem _ hw, hcw⟩
      · rw [if_neg ha]
        cases hS : splitOnSep sep t with
        | nil => exact absurd hS (splitOnSep_ne_nil sep t)
        | cons w0 ws =>
          rw [hS] at hw
          simp only [consHead]
          rcases List.mem_cons.1 hw with rfl | hwm
          · exact ⟨a :: w, List.mem_cons_self _ _, List.mem_cons_of_mem _ hcw⟩
          · exact ⟨w, List.mem_cons_of_mem _ hwm, hcw⟩

theorem mem_capWordLower (w : List Char) (c : Char)
    (hc : c ∈ capWordLower w) (hall : ∀ d ∈ w, isAsciiAlpha d = true) :
    isAsciiAlpha c = true := by
  cases w with
  | nil => cases hc
  | cons a t =>
    simp only [capWordLower] at hc
    rcases List.mem_cons.1 hc with rfl | hm
    · exact isAsciiAlpha_jsUpperChar _ (hall a (List.mem_cons_self _ _))
    · rcases List.mem_map.1 hm with ⟨d, hd, rfl⟩
      exact isAsciiAlpha_jsLowerChar _ (hall d (List.mem_cons_of_mem _ hd))

theorem mem_camelJoin (L : List (List Char)) (c : Char)
    (hc : c ∈ camelJoin L) (hall : ∀ w ∈ L, ∀ d ∈ w, isAsciiAlpha d = true) :
    isAsciiAlpha c = true := by
  cases L with
  | nil => cases hc
  | cons w ws =>
    simp only [camelJoin] at hc
    rcases List.mem_append.1 hc with hm | hm
    · rcases List.mem_map.1 hm with ⟨d, hd, rfl⟩
      exact isAsciiAlpha_jsLowerChar _ (hall w (List.mem_cons_self _ _) d hd)
    · rcases List.mem_flatten.1 hm with ⟨x, hx, hcx⟩
      rcases List.mem_map.1 hx with ⟨w', hw', rfl⟩
      exact mem_capWordLower w' c hcx (hall w' (List.mem_cons_of_mem _ hw'))

theorem camelJoin_eq_nil (L : List (List Char)) (h : camelJoin L = []) :
    ∀ w ∈ L, w = [] := by
  cases L with
  | nil => intro w hw; cases hw
  | cons w ws =>
    simp only [camelJoin, List.append_eq_nil] at h
    intro w' hw'
    rcases List.mem_cons.1 hw' with rfl | hm
    · exact List.map_eq_nil_iff.1 h.1
    · have hfl := List.flatten_eq_nil_iff.1 h.2
      have := hfl (capWordLower w') (List.mem_map_of_mem _ hm)
      cases w' with
      | nil => rfl
      | cons a t => simp [capWordLower] at this

/-- Every character of a `toCamelCase` result is an ASCII letter. -/
theorem toCamelCaseL_all_alpha (l : List Char) (c : Char) (hc : c ∈ toCamelCaseL l) :
    isAsciiAlpha c = true := by
  apply mem_camelJoin _ _ hc
  intro w hw d hd
  have := mem_splitOnSep '-' _ w d hw hd
  have hmem := mem_of_mem_stripEdgeHyphens _ _ this.1
  rcases mem_hyphenateGo false l d hmem with ha | rfl
  · exact ha
  · exact absurd rfl this.2

/-- The `toCamelCase` result is non-empty whenever the input has an ASCII letter. -/
theorem toCamelCaseL_ne_nil (l : List Char) (c : Char) (hc : c ∈ l)
    (ha : isAsciiAlpha c = true) : toCamelCaseL l ≠ [] := by
  intro hnil
  have h1 : c ∈ hyphenate l := alpha_mem_hyphenateGo false l c hc ha
  have h2 : c ∈ stripEdgeHyphens (hyphenate l) :=
    mem_stripEdgeHyphens_of_ne _ _ h1 (alpha_ne_hyphen c ha)
  rcases exists_word_splitOnSep '-' _ c h2 (alpha_ne_hyphen c ha) with ⟨w, hw, hcw⟩
  have := camelJoin_eq_nil _ hnil w hw
  subst this
  cases hcw

/-- The `toCamelCase` result never contains a special character. -/
theorem toCamelCase_not_special (s : String) :
    containsSpecialChar (toCamelCase s) = false := by
  rw [Bool.eq_false_iff]
  intro h
  rcases List.any_eq_true.1 h with ⟨c, hc, hs⟩
  have := toCamelCaseL_all_alpha s.data c hc
  rw [not_alpha_of_special c hs] at this
  cases this

/-- Lowercasing preserves the absence of special characters. -/
theorem jsToLowerCase_not_special (s : String)
    (h : containsSpecialChar s = false) :
    containsSpecialChar (jsToLowerCase s) = false := by
  rw [Bool.eq_false_iff] at h ⊢
  intro hs
  rcases List.any_eq_true.1 hs with ⟨c, hc, hcs⟩
  rcases List.mem_map.1 hc with ⟨d, hd, rfl⟩
  apply h
  refine List.any_eq_true.2 ⟨d, hd, ?_⟩
  by_contra hds
  rw [Bool.not_eq_true] at hds
  rw [jsLowerChar_not_special d hds] at hcs
  cases hcs

/-- Lowercasing a string twice is the same as doing it once. -/
theorem jsToLowerCase_idem (s : String) :
    jsToLowerCase (jsToLowerCase s) = jsToLowerCase s := by
  unfold jsToLowerCase
  rw [List.map_map]
  exact congrArg String.mk (List.map_congr_left fun c _ => jsLowerChar_idem c)

/-! ## Claim C1: determinism and idempotence of identifier normalization -/

/-- Claim C1, counterexample: normalization is NOT idempotent.  The input
`"a-b"` contains a special character, so it is camelCased to `"aB"`;
`"aB"` contains no special character, so a second normalization is a
straight lowercase, producing `"ab" ≠ "aB"`. -/
theorem resourceNameOf_not_idempotent :
    resourceNameOf (resourceNameOf "a-b") ≠ resourceNameOf "a-b" := by decide

/-- Claim C1 (amended): normalization is a deterministic function of its
input (the detection regex modelled with fresh `lastIndex`, as in the
single `test` call each invocation performs), and re-normalizing always
yields the lowercase of the first result; hence it is idempotent on
every input without special/separator characters, but not in general,
since the camelCase form may contain uppercase letters that a second
normalization lowercases. -/
theorem resourceNameOf_of_not_special (s : String)
    (h : containsSpecialChar s = false) : resourceNameOf s = jsToLowerCase s := by
  rw [resourceNameOf, h]
  simp only [Bool.not_false, if_true]

theorem resourceNameOf_of_special (s : String)
    (h : containsSpecialChar s = true) : resourceNameOf s = toCamelCase s := by
  rw [resourceNameOf, h]
  simp only [Bool.not_true, Bool.false_eq_true, if_false]

theorem resourceNameOf_renormalize :
    (∀ s, containsSpecialChar s = false →
      resourceNameOf (resourceNameOf s) = resourceNameOf s) ∧
    (∀ s, resourceNameOf (resourceNameOf s) = jsToLowerCase (resourceNameOf s)) := by
  constructor
  · intro s h
    rw [resourceNameOf_of_not_special s h,
      resourceNameOf_of_not_special _ (jsToLowerCase_not_special s h)]
    exact jsToLowerCase_idem s
  · intro s
    by_cases h : containsSpecialChar s = true
    · rw [resourceNameOf_of_special s h,
        resourceNameOf_of_not_special _ (toCamelCase_not_special s)]
    · rw [Bool.not_eq_true] at h
      rw [resourceNameOf_of_not_special s h,
        resourceNameOf_of_not_special _ (jsToLowerCase_not_special s h)]

/-- Witness for `resourceNameOf_renormalize` at the concrete input `"ab"`. -/
theorem resourceNameOf_renormalize_witness :
    containsSpecialChar "ab" = false ∧
    resourceNameOf (resourceNameOf "ab") = resourceNameOf "ab" :=
  ⟨by decide, resourceNameOf_renormalize.1 "ab" (by decide)⟩

/-! ## Claim C7: the camelCased identifier is letters-only and non-empty -/

/-- Claim C7: for every input containing a digit, punctuation or
whitespace character of the special set, the normalized identifier (the
camelCase conversion, which such inputs are routed to) contains only
ASCII letters, and is non-empty whenever the input contains a letter. -/
theorem resourceNameOf_special_alpha (s : String)
    (h : containsSpecialChar s = true) :
    ((resourceNameOf s).data.all isAsciiAlpha = true) ∧
    (s.data.any isAsciiAlpha = true → resourceNameOf s ≠ "") := by
  rw [resourceNameOf, h]
  simp only [Bool.not_true, Bool.false_eq_true, if_false]
  constructor
  · exact List.all_eq_true.2 fun c hc => toCamelCaseL_all_alpha s.data c hc
  · intro hany hne
    rcases List.any_eq_true.1 hany with ⟨c, hc, ha⟩
    apply toCamelCaseL_ne_nil s.data c hc ha
    have : (toCamelCase s).data = ("" : String).data := congrArg String.data hne
    exact this

/-- Witness for `resourceNameOf_special_alpha` at `"to-do list"`. -/
theorem resourceNameOf_special_alpha_witness :
    containsSpecialChar "to-do list" = true ∧
    ((resourceNameOf "to-do list").data.all isAsciiAlpha = true) ∧
    ("to-do list".data.any isAsciiAlpha = true → resourceNameOf "to-do list" ≠ "") :=
  ⟨by decide, resourceNameOf_special_alpha "to-do list" (by decide)⟩

theorem jsByteLength_eq_listByteLen (s : String) : jsByteLength s = listByteLen s.data := rfl

theorem listByteLen_le_of_sublist (l₁ l₂ : List Char) (h : List.Sublist l₁ l₂) :
    listByteLen l₁ ≤ listByteLen l₂ := by
  induction h with
  | slnil => exact Nat.le_refl _
  | cons a _ ih =>
    simp only [listByteLen, List.map_cons, List.sum_cons] at *
    omega
  | cons₂ a _ ih =>
    simp only [listByteLen, List.map_cons, List.sum_cons] at *
    omega

theorem listByteLen_reverse (l : List Char) : listByteLen l.reverse = listByteLen l := by
  simp [listByteLen, List.map_reverse, List.sum_reverse]

/-- Writing the trimmed content loses bytes whenever the template
starts with a whitespace character. -/
theorem jsByteLength_jsTrim_lt (s : String) (c : Char)
    (hh : s.data.head? = some c) (hw : isJsSpace c = true) :
    jsByteLength (jsTrim s) < jsByteLength s := by
  cases hd : s.data with
  | nil => rw [hd] at hh; cases hh
  | cons a t =>
    rw [hd] at hh
    have hac : a = c := by injection hh
    subst hac
    rw [jsByteLength_eq_listByteLen, jsByteLength_eq_listByteLen, hd]
    unfold jsTrim
    rw [hd]
    show listByteLen (((((a :: t).dropWhile isJsSpace).reverse.dropWhile isJsSpace).reverse)) <
      listByteLen (a :: t)
    rw [List.dropWhile_cons, hw]
    simp only [if_true]
    have h1 : listByteLen ((t.dropWhile isJsSpace).reverse.dropWhile isJsSpace).reverse ≤
        listByteLen t := by
      rw [listByteLen_reverse]
      calc listByteLen ((t.dropWhile isJsSpace).reverse.dropWhile isJsSpace)
          ≤ listByteLen (t.dropWhile isJsSpace).reverse :=
            listByteLen_le_of_sublist _ _ (List.dropWhile_sublist _)
        _ = listByteLen (t.dropWhile isJsSpace) := listByteLen_reverse _
        _ ≤ listByteLen t := listByteLen_le_of_sublist _ _ (List.dropWhile_sublist _)
    have h2 : listByteLen (a :: t) = a.utf8Size + listByteLen t := by
      simp [listByteLen]
    have h3 : 0 < a.utf8Size := Char.utf8Size_pos a
    omega

/-- The first character of an appended string is that of the left part. -/
theorem head?_data_append (s t : String) (c : Char) (h : s.data.head? = some c) :
    (s ++ t).data.head? = some c := by
  rw [String.data_append]
  cases hd : s.data with
  | nil => rw [hd] at h; cases h
  | cons a l =>
    rw [hd] at h
    have hac : a = c := by injection h
    subst hac
    simp

theorem routeContent_head (raw res cap : String) :
    (routeContent raw res cap).data.head? = some (Char.ofNat 10) := by
  unfold routeContent
  exact head?_data_append _ _ _ rfl

theorem controllerContent_head (raw res cap : String) :
    (controllerContent raw res cap).data.head? = some (Char.ofNat 10) := by
  unfold controllerContent
  exact head?_data_append _ _ _ rfl

theorem validationContent_head (raw res cap : String) :
    (validationContent raw res cap).data.head? = some (Char.ofNat 10) := by
  unfold validationContent
  exact head?_data_append _ _ _ rfl

theorem serviceContent_head (raw res cap : String) :
    (serviceContent raw res cap).data.head? = some (Char.ofNat 10) := by
  unfold serviceContent
  exact head?_data_append _ _ _ rfl

/-! ## Support lemmas for the reconciler -/

theorem string_ext (s t : String) (h : s.data = t.data) : s = t := by
  cases s; cases t; exact congrArg String.mk h

theorem string_append_left_cancel (m a b : String) (h : m ++ a = m ++ b) : a = b := by
  have hd := congrArg String.data h
  rw [String.data_append, String.data_append] at hd
  exact string_ext _ _ (List.append_cancel_left hd)

theorem string_append_right_cancel (a b t : String) (h : a ++ t = b ++ t) : a = b := by
  have hd := congrArg String.data h
  rw [String.data_append, String.data_append] at hd
  exact string_ext _ _ (List.append_cancel_right hd)

/-- Every expected file name gets a template, and every template starts
with the newline the template literal opens with. -/
theorem contentFor_of_expected (m f : String) (hmem : f ∈ getExpectedFiles m) :
    ∃ c, contentFor m f = some c ∧ c.data.head? = some (Char.ofNat 10) := by
  have hrc : ¬ (m ++ ".controller.ts" = m ++ ".route.ts") := fun h => by
    have := string_append_left_cancel _ _ _ h; simp at this
  have hsr : ¬ (m ++ ".service.ts" = m ++ ".route.ts") := fun h => by
    have := string_append_left_cancel _ _ _ h; simp at this
  have hsc : ¬ (m ++ ".service.ts" = m ++ ".controller.ts") := fun h => by
    have := string_append_left_cancel _ _ _ h; simp at this
  have hsv : ¬ (m ++ ".service.ts" = m ++ ".validation.ts") := fun h => by
    have := string_append_left_cancel _ _ _ h; simp at this
  have hvr : ¬ (m ++ ".validation.ts" = m ++ ".route.ts") := fun h => by
    have := string_append_left_cancel _ _ _ h; simp at this
  have hvc : ¬ (m ++ ".validation.ts" = m ++ ".controller.ts") := fun h => by
    have := string_append_left_cancel _ _ _ h; simp at this
  simp only [getExpectedFiles, List.mem_cons, List.not_mem_nil, or_false] at hmem
  rcases hmem with rfl | rfl | rfl | rfl
  · exact ⟨_, by rw [contentFor, if_neg hrc, if_pos rfl], controllerContent_head _ _ _⟩
  · exact ⟨_, by rw [contentFor, if_pos rfl], routeContent_head _ _ _⟩
  · exact ⟨_, by rw [contentFor, if_neg hsr, if_neg hsc, if_neg hsv, if_pos rfl],
      serviceContent_head _ _ _⟩
  · exact ⟨_, by rw [contentFor, if_neg hvr, if_neg hvc, if_pos rfl],
      validationContent_head _ _ _⟩

/-- Running `createAllFiles` on expected file names: one write and one log per
file, writes named by the files, in order. -/
theorem createAllFiles_of_expected (m : String) (fs : List String)
    (h : ∀ f ∈ fs, f ∈ getExpectedFiles m) :
    ∃ eff, createAllFiles m fs = some eff ∧
      eff.writes.map WriteEv.fileName = fs ∧ eff.logs.length = fs.length ∧
      ∀ lg ∈ eff.logs, ∃ p b, lg = LogLine.createdFile p b := by
  induction fs with
  | nil => exact ⟨noEffects, rfl, rfl, rfl, by intro lg hlg; cases hlg⟩
  | cons f fs ih =>
    rcases contentFor_of_expected m f (h f (List.mem_cons_self _ _)) with ⟨c, hc, _⟩
    rcases ih (fun g hg => h g (List.mem_cons_of_mem _ hg)) with ⟨eff, heff, hnames, hlen, hlogs⟩
    refine ⟨⟨⟨f, jsTrim c, jsByteLength c⟩ :: eff.writes,
      LogLine.createdFile ("src/modules/" ++ m ++ "/" ++ f) (jsByteLength c) :: eff.logs⟩,
      ?_, ?_, ?_, ?_⟩
    · rw [createAllFiles]
      rw [createSingleFile, hc]
      simp only [Option.map_some, Option.bind_some, Option.bind_eq_bind]
      rw [heff]
      rfl
    · simp [hnames]
    · simp [hlen]
    · intro lg hlg
      rcases List.mem_cons.1 hlg with rfl | hmem
      · exact ⟨_, _, rfl⟩
      · exact hlogs lg hmem

theorem searchFile_of_find?_some (entries : List DirEnt) (m : String) (ans : OpAnswers)
    (e : DirEnt) (hf : entries.find? (entryMatches m) = some e) :
    searchFile entries m ans = (triage m e.files ans).map fun eff => (true, eff) := by
  induction entries with
  | nil => cases hf
  | cons a es ih =>
    rw [List.find?_cons] at hf
    unfold searchFile
    by_cases hm : entryMatches m a = true
    · rw [hm] at hf
      have : a = e := by injection hf
      subst this
      rw [if_pos hm]
    · rw [Bool.not_eq_true] at hm
      rw [hm] at hf
      rw [if_neg (by simp [hm])]
      exact ih hf

theorem searchFile_of_find?_none (entries : List DirEnt) (m : String) (ans : OpAnswers)
    (hf : entries.find? (entryMatches m) = none) :
    searchFile entries m ans = some (false, noEffects) := by
  induction entries with
  | nil => rfl
  | cons a es ih =>
    rw [List.find?_cons] at hf
    unfold searchFile
    by_cases hm : entryMatches m a = true
    · rw [hm] at hf; cases hf
    · rw [Bool.not_eq_true] at hm
      rw [hm] at hf
      rw [if_neg (by simp [hm])]
      exact ih hf

theorem mkdirStep_cwdEntries_of_found (st : FState) (m : String) (e : DirEnt)
    (hc : Coupled st m) (hf : st.cwdEntries.find? (entryMatches m) = some e) :
    (mkdirStep st m).cwdEntries = st.cwdEntries := by
  unfold mkdirStep
  by_cases hex : st.scriptDirExists = true
  · rw [if_pos hex]
  · rw [Bool.not_eq_true] at hex
    rw [if_neg (by simp [hex])]
    cases hsr : st.sameRoot with
    | false => simp [hsr]
    | true =>
      exfalso
      have hcoup := hc hsr
      have hany : (st.cwdEntries.any fun e => e.name == m) = true := by
        refine List.any_eq_true.2 ⟨e, List.mem_of_find?_eq_some hf, ?_⟩
        have hp := List.find?_some hf
        simp only [entryMatches, Bool.and_eq_true] at hp
        exact hp.1
      rw [hany, hex] at hcoup
      cases hcoup

theorem applyWrites_nil (st : FState) (m : String) : applyWrites st m [] = st := by
  unfold applyWrites
  simp

/-- Elements of `missingOf` are expected files that were not found. -/
theorem mem_missingOf (m : String) (found : List String) (f : String)
    (h : f ∈ missingOf m found) : f ∈ getExpectedFiles m ∧ ¬ f ∈ found := by
  unfold missingOf at h
  have h1 := List.mem_of_mem_filter h
  have h2 := List.of_mem_filter h
  refine ⟨h1, fun hmem => ?_⟩
  rw [Bool.not_eq_eq_eq_not, Bool.not_true] at h2
  simp only [List.contains, List.elem_eq_mem, decide_eq_false_iff_not] at h2
  exact h2 hmem

theorem missingOf_eq_nil (m : String) (found : List String)
    (hall : ∀ f ∈ getExpectedFiles m, f ∈ found) : missingOf m found = [] := by
  unfold missingOf
  rw [List.filter_eq_nil_iff]
  intro f hf
  simp only [Bool.not_eq_true', List.contains, List.elem_eq_mem, decide_eq_false_iff_not,
    Decidable.not_not]
  exact hall f hf

theorem mkdirStep_of_not_same (st : FState) (m : String) (h : st.sameRoot = false) :
    mkdirStep st m = ⟨false, true, st.cwdEntries⟩ := by
  unfold mkdirStep
  by_cases hex : st.scriptDirExists = true
  · rw [if_pos hex]
    cases st with
    | mk a b c =>
      simp only at h hex
      rw [h, hex]
  · rw [Bool.not_eq_true] at hex
    rw [if_neg (by simp [hex]), h]
    simp

theorem mkdirStep_of_same_missing (st : FState) (m : String)
    (hsr : st.sameRoot = true) (hex : st.scriptDirExists = false) :
    mkdirStep st m = ⟨true, true, st.cwdEntries ++ [⟨m, true, []⟩]⟩ := by
  unfold mkdirStep
  rw [if_neg (by simp [hex]), hsr]
  simp

theorem find?_append_singleton (l : List DirEnt) (m : String) (x : DirEnt)
    (h : ∀ a ∈ l, entryMatches m a = false) (hx : entryMatches m x = true) :
    (l ++ [x]).find? (entryMatches m) = some x := by
  induction l with
  | nil => simp [List.find?_cons, hx]
  | cons a t ih =>
    rw [List.cons_append, List.find?_cons, h a (List.mem_cons_self _ _)]
    exact ih fun b hb => h b (List.mem_cons_of_mem _ hb)

theorem missingOf_nil_found (m : String) : missingOf m [] = getExpectedFiles m := by
  unfold missingOf
  simp [List.contains]

/-! ## Claim C4: complete module means zero writes -/

/-- Claim C4: when the module directory is found and all four expected
files are present, the run performs zero file writes, logs the "module
already exists" report, and leaves the directory listing (hence every
existing file's content) unchanged. -/
theorem resourceRun_complete_no_writes (st : FState) (m : String) (ans : OpAnswers)
    (e : DirEnt) (hm : m ≠ "") (hc : Coupled st m)
    (hf : st.cwdEntries.find? (entryMatches m) = some e)
    (hall : ∀ f ∈ getExpectedFiles m, f ∈ e.files) :
    resourceRun st m ans = some (mkdirStep st m, ⟨[], [LogLine.moduleAlready m]⟩) ∧
    (mkdirStep st m).cwdEntries = st.cwdEntries := by
  have hents := mkdirStep_cwdEntries_of_found st m e hc hf
  refine ⟨?_, hents⟩
  unfold resourceRun
  rw [if_neg hm, hents, searchFile_of_find?_some _ _ _ _ hf]
  have hmiss : missingOf m e.files = [] := missingOf_eq_nil m e.files hall
  simp only [triage, hmiss, List.length_nil, if_true]
  simp [applyWrites_nil]

/-- Witness for Claim C4 at a complete `user` module. -/
theorem resourceRun_complete_no_writes_witness :
    ("user" : String) ≠ "" ∧
    Coupled ⟨true, true, [⟨"user", true, getExpectedFiles "user"⟩]⟩ "user" ∧
    resourceRun ⟨true, true, [⟨"user", true, getExpectedFiles "user"⟩]⟩ "user" ⟨"", []⟩ =
      some (mkdirStep ⟨true, true, [⟨"user", true, getExpectedFiles "user"⟩]⟩ "user",
        ⟨[], [LogLine.moduleAlready "user"]⟩) :=
  ⟨by decide, by intro h; decide,
    (resourceRun_complete_no_writes _ "user" ⟨"", []⟩ ⟨"user", true, getExpectedFiles "user"⟩
      (by decide) (by intro h; decide) (by decide) (by decide)).1⟩

/-! ## Claim C5: unrecognized answer aborts without writing -/

/-- Claim C5: in the some-but-not-all-files-missing state, an answer
that is none of yes/y/create/c (after lowercasing) produces the
"Invalid option" diagnostic and zero file writes; the directory listing
is unchanged. -/
theorem resourceRun_invalid_answer_aborts (st : FState) (m : String) (ans : OpAnswers)
    (e : DirEnt) (hm : m ≠ "") (hc : Coupled st m)
    (hf : st.cwdEntries.find? (entryMatches m) = some e)
    (hne : missingOf m e.files ≠ [])
    (hlt : (missingOf m e.files).length < (getExpectedFiles m).length)
    (hy : jsToLowerCase ans.main ≠ "yes") (hy2 : jsToLowerCase ans.main ≠ "y")
    (hcr : jsToLowerCase ans.main ≠ "create") (hc2 : jsToLowerCase ans.main ≠ "c") :
    resourceRun st m ans = some (mkdirStep st m,
      ⟨[], (LogLine.moduleSomeMissing m ::
        (missingOf m e.files).enum.map fun p => LogLine.missingEntry p.1 p.2) ++
        [LogLine.invalidOption]⟩) ∧
    (mkdirStep st m).cwdEntries = st.cwdEntries := by
  have hents := mkdirStep_cwdEntries_of_found st m e hc hf
  refine ⟨?_, hents⟩
  unfold resourceRun
  rw [if_neg hm, hents, searchFile_of_find?_some _ _ _ _ hf]
  have hlen0 : ¬ (missingOf m e.files).length = 0 := fun h =>
    hne (List.length_eq_zero.1 h)
  have hnyes : ¬ (jsToLowerCase ans.main = "yes" ∨ jsToLowerCase ans.main = "y") := by
    rintro (h | h)
    exacts [hy h, hy2 h]
  have hncr : ¬ (jsToLowerCase ans.main = "create" ∨ jsToLowerCase ans.main = "c") := by
    rintro (h | h)
    exacts [hcr h, hc2 h]
  simp only [triage, if_neg hlen0,
    if_pos (And.intro (Nat.pos_of_ne_zero hlen0) hlt), if_neg hnyes, if_neg hncr]
  simp [applyWrites_nil]

/-- Witness for Claim C5: only the controller file exists and the
operator answers `no`. -/
theorem resourceRun_invalid_answer_aborts_witness :
    missingOf "user" ["user.controller.ts"] ≠ [] ∧
    jsToLowerCase "no" ≠ "create" ∧
    resourceRun ⟨true, true, [⟨"user", true, ["user.controller.ts"]⟩]⟩ "user" ⟨"no", []⟩ =
      some (mkdirStep ⟨true, true, [⟨"user", true, ["user.controller.ts"]⟩]⟩ "user",
        ⟨[], (LogLine.moduleSomeMissing "user" ::
          (missingOf "user" ["user.controller.ts"]).enum.map
            fun p => LogLine.missingEntry p.1 p.2) ++ [LogLine.invalidOption]⟩) :=
  ⟨by decide, by decide,
    (resourceRun_invalid_answer_aborts _ "user" ⟨"no", []⟩ ⟨"user", true, ["user.controller.ts"]⟩
      (by decide) (by intro h; decide) (by decide) (by decide) (by decide)
      (by decide) (by decide) (by decide) (by decide)).1⟩

/-! ## Claim C8: create-all with exactly one missing file -/

/-- Claim C8: in the some-missing state with exactly one missing file,
the create-all answer (`create`/`c`, case-insensitively) writes exactly
that file — an expected role name not present before — and rewrites no
existing file. -/
theorem resourceRun_create_single_missing (st : FState) (m : String) (ans : OpAnswers)
    (e : DirEnt) (f : String) (hm : m ≠ "") (hc : Coupled st m)
    (hf : st.cwdEntries.find? (entryMatches m) = some e)
    (hmiss : missingOf m e.files = [f])
    (ha : jsToLowerCase ans.main = "create" ∨ jsToLowerCase ans.main = "c") :
    ∃ c, contentFor m f = some c ∧
      resourceRun st m ans = some
        (applyWrites (mkdirStep st m) m [⟨f, jsTrim c, jsByteLength c⟩],
          ⟨[⟨f, jsTrim c, jsByteLength c⟩],
            [LogLine.moduleSomeMissing m, LogLine.missingEntry 0 f,
              LogLine.createdFile ("src/modules/" ++ m ++ "/" ++ f) (jsByteLength c)]⟩) ∧
      f ∈ getExpectedFiles m ∧ ¬ f ∈ e.files := by
  have hmem : f ∈ getExpectedFiles m ∧ ¬ f ∈ e.files :=
    mem_missingOf m e.files f (by rw [hmiss]; exact List.mem_cons_self _ _)
  rcases contentFor_of_expected m f hmem.1 with ⟨c, hcont, _⟩
  refine ⟨c, hcont, ?_, hmem.1, hmem.2⟩
  have hents := mkdirStep_cwdEntries_of_found st m e hc hf
  unfold resourceRun
  rw [if_neg hm, hents, searchFile_of_find?_some _ _ _ _ hf]
  have hlen0 : ¬ (missingOf m e.files).length = 0 := by rw [hmiss]; simp
  have hlt : (missingOf m e.files).length < (getExpectedFiles m).length := by
    rw [hmiss]
    have h4 : (getExpectedFiles m).length = 4 := rfl
    simp only [List.length_singleton, h4]
    omega
  have hnyes : ¬ (jsToLowerCase ans.main = "yes" ∨ jsToLowerCase ans.main = "y") := by
    rcases ha with h | h <;> rw [h] <;> decide
  have hcr : (jsToLowerCase ans.main = "create" ∨ jsToLowerCase ans.main = "c") := ha
  simp only [triage, if_neg hlen0, if_pos (And.intro (Nat.pos_of_ne_zero hlen0) hlt),
    if_neg hnyes, if_pos hcr, hmiss]
  rw [show createAllFiles m [f] =
      some ⟨[⟨f, jsTrim c, jsByteLength c⟩],
        [LogLine.createdFile ("src/modules/" ++ m ++ "/" ++ f) (jsByteLength c)]⟩ from by
    rw [createAllFiles, createSingleFile, hcont]
    rfl]
  simp [List.enum]
  rw [show (getExpectedFiles m).length = 4 from rfl]
  omega

/-- Witness for Claim C8: only the validation file is missing and the
operator answers `c`. -/
theorem resourceRun_create_single_missing_witness :
    missingOf "user" ["user.controller.ts", "user.route.ts", "user.service.ts"] =
      ["user.validation.ts"] ∧
    (jsToLowerCase "c" = "create" ∨ jsToLowerCase "c" = "c") ∧
    ∃ c, contentFor "user" "user.validation.ts" = some c ∧
      resourceRun ⟨true, true,
          [⟨"user", true, ["user.controller.ts", "user.route.ts", "user.service.ts"]⟩]⟩
        "user" ⟨"c", []⟩ = some
        (applyWrites (mkdirStep ⟨true, true,
            [⟨"user", true, ["user.controller.ts", "user.route.ts", "user.service.ts"]⟩]⟩
            "user") "user" [⟨"user.validation.ts", jsTrim c, jsByteLength c⟩],
          ⟨[⟨"user.validation.ts", jsTrim c, jsByteLength c⟩],
            [LogLine.moduleSomeMissing "user", LogLine.missingEntry 0 "user.validation.ts",
              LogLine.createdFile "src/modules/user/user.validation.ts" (jsByteLength c)]⟩) ∧
      "user.validation.ts" ∈ getExpectedFiles "user" ∧
      ¬ "user.validation.ts" ∈ ["user.controller.ts", "user.route.ts", "user.service.ts"] :=
  ⟨by decide, by decide,
    resourceRun_create_single_missing _ "user" ⟨"c", []⟩
      ⟨"user", true, ["user.controller.ts", "user.route.ts", "user.service.ts"]⟩
      "user.validation.ts" (by decide) (by intro h; decide) (by decide) (by decide) (by decide)⟩

/-! ## Claim C3: behaviour when no module directory pre-exists -/

/-- Claim C3 (amended): the action creates the module directory under
the script-relative modules path before searching.  When the cwd
modules root is a different directory and holds no directory named
after the resource, the run reports "module not found" and writes no
module files — but the script-relative directory has been created, so
the file system is not unchanged.  When the two roots coincide (the
normal case) the freshly created empty directory is found and the run
writes all four module files without ever reporting "not found". -/
theorem resourceRun_no_preexisting_dir :
    (∀ st : FState, ∀ m : String, ∀ ans : OpAnswers, m ≠ "" → st.sameRoot = false →
      st.cwdEntries.find? (entryMatches m) = none →
      resourceRun st m ans =
        some (⟨false, true, st.cwdEntries⟩, ⟨[], [LogLine.moduleNotFound m]⟩)) ∧
    (∀ st : FState, ∀ m : String, ∀ ans : OpAnswers, m ≠ "" → st.sameRoot = true →
      st.scriptDirExists = false → Coupled st m →
      ∃ eff, resourceRun st m ans =
          some (applyWrites (mkdirStep st m) m eff.writes, eff) ∧
        eff.writes.map WriteEv.fileName = getExpectedFiles m ∧
        ¬ LogLine.moduleNotFound m ∈ eff.logs) := by
  constructor
  · intro st m ans hm hroots hf
    unfold resourceRun
    rw [if_neg hm, mkdirStep_of_not_same st m hroots]
    rw [show (FState.mk false true st.cwdEntries).cwdEntries = st.cwdEntries from rfl]
    rw [searchFile_of_find?_none _ _ _ hf]
    simp [noEffects, applyWrites_nil, mkdirStep_of_not_same st m hroots]
  · intro st m ans hm hroots hex hc
    have hnomatch : ∀ a ∈ st.cwdEntries, entryMatches m a = false := by
      intro a hmem
      have hany := hc hroots
      rw [hex] at hany
      by_contra hcon
      rw [Bool.not_eq_false] at hcon
      simp only [entryMatches, Bool.and_eq_true] at hcon
      have : (st.cwdEntries.any fun e => e.name == m) = true :=
        List.any_eq_true.2 ⟨a, hmem, hcon.1⟩
      rw [this] at hany
      cases hany
    have hmk := mkdirStep_of_same_missing st m hroots hex
    have hfind : (mkdirStep st m).cwdEntries.find? (entryMatches m) =
        some ⟨m, true, []⟩ := by
      rw [hmk]
      exact find?_append_singleton _ _ _ hnomatch (by simp [entryMatches])
    rcases createAllFiles_of_expected m (getExpectedFiles m) (fun f hf => hf) with
      ⟨eff, heff, hnames, _, hlogs⟩
    refine ⟨eff, ?_, hnames, ?_⟩
    · unfold resourceRun
      rw [if_neg hm, searchFile_of_find?_some _ _ _ _ hfind]
      have hmiss : missingOf m ([] : List String) = getExpectedFiles m :=
        missingOf_nil_found m
      have hlen : ¬ (getExpectedFiles m).length = 0 := by
        rw [show (getExpectedFiles m).length = 4 from rfl]
        omega
      have hnotlt : ¬ (0 < (getExpectedFiles m).length ∧
          (getExpectedFiles m).length < (getExpectedFiles m).length) := by
        rintro ⟨-, hlt⟩
        exact absurd hlt (by omega)
      simp only [triage, hmiss]
      rw [if_neg hlen, if_neg hnotlt, heff]
      simp
    · intro hmem
      rcases hlogs _ hmem with ⟨p, b, hpb⟩
      cases hpb

/-- Witness for Claim C3 (amended) at distinct roots and an empty cwd
modules listing. -/
theorem resourceRun_no_preexisting_dir_witness :
    ("user" : String) ≠ "" ∧
    resourceRun ⟨false, false, []⟩ "user" ⟨"", []⟩ =
      some (⟨false, true, []⟩, ⟨[], [LogLine.moduleNotFound "user"]⟩) :=
  ⟨by decide,
    resourceRun_no_preexisting_dir.1 ⟨false, false, []⟩ "user" ⟨"", []⟩
      (by decide) rfl rfl⟩

/-- Claim C3, counterexample: with coincident roots (the tool invoked
from the project root) and no pre-existing module directory, the run
writes all four files and never logs "module not found" — the claimed
report-and-write-nothing behaviour does not occur. -/
theorem resourceRun_no_dir_writes_counterexample :
    (resourceRun ⟨true, false, []⟩ "user" ⟨"", []⟩).map
      (fun r => (r.2.writes.map WriteEv.fileName,
        r.2.logs.contains (LogLine.moduleNotFound "user"))) =
    some (["user.controller.ts", "user.route.ts", "user.service.ts", "user.validation.ts"],
      false) := by
  rfl

/-! ## Claim C2: each write logs one line, but with the untrimmed size -/

/-- Claim C2 (amended): each file the reconciler writes produces exactly
one write and one accompanying log line reporting the relative path;
the content written is the trimmed template, while the logged byte
count is `Buffer.byteLength` of the untrimmed template, which is
strictly larger because every template starts (and ends) with
whitespace.  The logged size therefore never equals the written size. -/
theorem createSingleFile_logs_untrimmed_size (m f : String)
    (hmem : f ∈ getExpectedFiles m) :
    ∃ c, contentFor m f = some c ∧
      createSingleFile m f = some
        (⟨f, jsTrim c, jsByteLength c⟩,
          LogLine.createdFile ("src/modules/" ++ m ++ "/" ++ f) (jsByteLength c)) ∧
      jsByteLength (jsTrim c) < jsByteLength c := by
  rcases contentFor_of_expected m f hmem with ⟨c, hc, hhead⟩
  refine ⟨c, hc, ?_, ?_⟩
  · rw [createSingleFile, hc]
    rfl
  · exact jsByteLength_jsTrim_lt c (Char.ofNat 10) hhead (by decide)

/-- Witness for Claim C2 (amended) at the `user` route file. -/
theorem createSingleFile_logs_untrimmed_size_witness :
    "user.route.ts" ∈ getExpectedFiles "user" ∧
    ∃ c, contentFor "user" "user.route.ts" = some c ∧
      createSingleFile "user" "user.route.ts" = some
        (⟨"user.route.ts", jsTrim c, jsByteLength c⟩,
          LogLine.createdFile "src/modules/user/user.route.ts" (jsByteLength c)) ∧
      jsByteLength (jsTrim c) < jsByteLength c :=
  ⟨by decide, createSingleFile_logs_untrimmed_size "user" "user.route.ts" (by decide)⟩

/-- Claim C2, counterexample: for the `user` route file the logged byte
count (of the untrimmed template) differs from the byte size of the
content actually written (the trimmed template). -/
theorem createSingleFile_logged_ne_written :
    (createSingleFile "user" "user.route.ts").elim False
      (fun p => ¬ p.1.loggedBytes = jsByteLength p.1.written) := by
  have hcond : ("user.route.ts" : String) = "user" ++ ".route.ts" := by decide
  have hc : contentFor "user" "user.route.ts" =
      some (routeContent "user" (resourceNameOf "user") (capitalize (resourceNameOf "user"))) := by
    rw [contentFor, if_pos hcond]
  rw [createSingleFile, hc]
  simp only [Option.map_some, Option.elim]
  intro h
  have hlt := jsByteLength_jsTrim_lt
    (routeContent "user" (resourceNameOf "user") (capitalize (resourceNameOf "user")))
    (Char.ofNat 10) (routeContent_head _ _ _) (by decide)
  simp only at h
  omega

/-! ## Claims C6, C9, C10: the nested-resource command -/

theorem splitOnSep_cons_sep (sep : Char) (v : List Char) :
    splitOnSep sep (sep :: v) = [] :: splitOnSep sep v := by
  show (if sep = sep then [] :: splitOnSep sep v else consHead sep (splitOnSep sep v)) =
    [] :: splitOnSep sep v
  rw [if_pos rfl]

theorem splitOnSep_append_left (sep : Char) (u v : List Char) (w : List Char)
    (ws : List (List Char)) (hu : ¬ sep ∈ u) (hv : splitOnSep sep v = w :: ws) :
    splitOnSep sep (u ++ v) = (u ++ w) :: ws := by
  induction u with
  | nil => simpa using hv
  | cons a t ih =>
    have ha : ¬ a = sep := fun h => hu (h ▸ List.mem_cons_self _ _)
    rw [List.cons_append]
    unfold splitOnSep
    rw [if_neg ha, ih (fun h => hu (List.mem_cons_of_mem _ h))]
    rfl

theorem split_join_replicate (k : Nat) :
    splitOnSlash (joinSlash (List.replicate (k + 1) "..")) =
      List.replicate (k + 1) ".." := by
  induction k with
  | zero => decide
  | succ k ih =>
    rw [List.replicate_succ]
    rw [show joinSlash (".." :: List.replicate (k + 1) "..") =
        ".." ++ "/" ++ joinSlash (List.replicate (k + 1) "..") from by
      rw [List.replicate_succ]
      rfl]
    unfold splitOnSlash
    have hdata : (".." ++ "/" ++ joinSlash (List.replicate (k + 1) "..")).data =
        ['.', '.'] ++ '/' :: (joinSlash (List.replicate (k + 1) "..")).data := by
      rw [String.data_append, String.data_append]
      rfl
    rw [hdata]
    cases hsp : splitOnSep '/' (joinSlash (List.replicate (k + 1) "..")).data with
    | nil => exact absurd hsp (splitOnSep_ne_nil _ _)
    | cons w ws =>
      rw [splitOnSep_append_left '/' ['.', '.'] _ [] _ (by decide)
        (by rw [splitOnSep_cons_sep, hsp])]
      rw [List.map_cons, List.replicate_succ]
      have : splitOnSlash (joinSlash (List.replicate (k + 1) "..")) =
          (w :: ws).map String.mk := by
        unfold splitOnSlash
        rw [hsp]
      rw [ih] at this
      rw [show String.mk (['.', '.'] ++ []) = ".." from by decide, ← this]
      rfl

/-- Claim C6: the relative import path emitted for the shared helpers of
a nested invocation consists of exactly `n + 2` parent-directory steps,
`n` the number of nested folder segments; for `a/b/widget` the depth is
4. -/
theorem sharedHelperPath_depth :
    (∀ pathArg : String, splitOnSlash (sharedHelperPathFor pathArg) =
      List.replicate ((nestedFoldersOf pathArg).length + 2) "..") ∧
    (nestedFoldersOf "a/b/widget").length = 2 ∧
    sharedHelperPathFor "a/b/widget" = "../../../.." := by
  refine ⟨?_, by decide, by decide⟩
  intro pathArg
  exact split_join_replicate ((nestedFoldersOf pathArg).length + 1)

/-- Claim C9: a command word other than `resource` and `nested-resource`
exits with status 1, prints the unknown-command error and writes
nothing; the recognised commands exit with status 0. -/
theorem cliMain_unknown_command (cmd : String) (cliArgs : List String)
    (h1 : cmd ≠ "resource") (h2 : cmd ≠ "nested-resource") :
    ((cliMain cmd cliArgs).exitCode = 1 ∧ (cliMain cmd cliArgs).wroteFiles = [] ∧
      (cliMain cmd cliArgs).errLines = ["Unknown command: " ++ cmd]) ∧
    ((cliMain "resource" cliArgs).exitCode = 0 ∧
      (cliMain "nested-resource" cliArgs).exitCode = 0) := by
  refine ⟨?_, by constructor <;> rfl⟩
  simp [cliMain, h1, h2]

/-- Witness for Claim C9 at the unknown command `resource-xyz`. -/
theorem cliMain_unknown_command_witness :
    ("resource-xyz" : String) ≠ "resource" ∧
    (cliMain "resource-xyz" []).exitCode = 1 ∧ (cliMain "resource-xyz" []).wroteFiles = [] :=
  ⟨by decide, (cliMain_unknown_command "resource-xyz" [] (by decide) (by decide)).1.1,
    (cliMain_unknown_command "resource-xyz" [] (by decide) (by decide)).1.2.1⟩

theorem splitOnSlash_ne_nil (s : String) : splitOnSlash s ≠ [] := by
  intro h
  unfold splitOnSlash at h
  exact splitOnSep_ne_nil '/' s.data (List.map_eq_nil_iff.1 h)

/-- Characters of the final path segment come from the path and are
never the separator. -/
theorem mem_lastSegOf (s : String) (c : Char) (hc : c ∈ (lastSegOf s).data) :
    c ∈ s.data ∧ c ≠ '/' := by
  unfold lastSegOf at hc
  cases hl : (splitOnSlash s).getLast? with
  | none =>
    exfalso
    exact splitOnSlash_ne_nil s (List.getLast?_eq_none_iff.1 hl)
  | some w =>
    rw [hl] at hc
    simp only [Option.getD_some] at hc
    have hwmem : w ∈ splitOnSlash s := by
      rcases List.mem_getLast?_eq_getLast (by rw [hl]; rfl : w ∈ (splitOnSlash s).getLast?)
        with ⟨hne, rfl⟩
      exact List.getLast_mem hne
    rcases List.mem_map.1 hwmem with ⟨wl, hwl, rfl⟩
    exact mem_splitOnSep '/' s.data wl c hwl hc

/-- Claim C10: the controller imports `<camel>Services` while the
service exports `<raw>Services`; the identifiers coincide exactly when
the raw final segment equals its normalized form, and differ whenever
the segment contains a special character (which normalization rewrites
to a letters-only identifier). -/
theorem nested_services_ident_mismatch (pathArg : String) :
    ((nestedControllerServicesIdent pathArg = nestedServiceExportIdent pathArg) ↔
      nestedResourceCamelName pathArg = lastSegOf pathArg) ∧
    ((lastSegOf pathArg).data.any isSpecialChar = true →
      nestedControllerServicesIdent pathArg ≠ nestedServiceExportIdent pathArg) := by
  have hiff : (nestedControllerServicesIdent pathArg = nestedServiceExportIdent pathArg) ↔
      nestedResourceCamelName pathArg = lastSegOf pathArg := by
    constructor
    · intro h
      exact string_append_right_cancel _ _ _ h
    · intro h
      unfold nestedControllerServicesIdent nestedServiceExportIdent
      rw [h]
  refine ⟨hiff, ?_⟩
  intro hspec heq
  have hcamel := hiff.1 heq
  rcases List.any_eq_true.1 hspec with ⟨c, hcm, hcs⟩
  have hpath : containsSpecialChar pathArg = true := by
    rcases mem_lastSegOf pathArg c hcm with ⟨hcp, -⟩
    exact List.any_eq_true.2 ⟨c, hcp, hcs⟩
  have hbranch : nestedResourceCamelName pathArg = toCamelCase (lastSegOf pathArg) := by
    unfold nestedResourceCamelName
    rw [hpath]
    simp
  rw [hbranch] at hcamel
  have hcdata : c ∈ (toCamelCase (lastSegOf pathArg)).data := by
    rw [hcamel]
    exact hcm
  have halpha := toCamelCaseL_all_alpha (lastSegOf pathArg).data c hcdata
  rw [not_alpha_of_special c hcs] at halpha
  cases halpha

/-- Witness for Claim C10 at the nested path `a/b/to-do`. -/
theorem nested_services_ident_mismatch_witness :
    (lastSegOf "a/b/to-do").data.any isSpecialChar = true ∧
    nestedControllerServicesIdent "a/b/to-do" ≠ nestedServiceExportIdent "a/b/to-do" :=
  ⟨by decide, (nested_services_ident_mismatch "a/b/to-do").2 (by decide)⟩
